import Mathlib
/-!
# Verification of the truckingCompanyCrawler repository

A shallow embedding, in Lean 4, of the parts of the crawler that the
specification's claims are about:

* `src/utils.py`        — URL normalization (`normalize_url`, `is_same_domain`)
* `src/config.py`       — configuration constants (excluded URL patterns, budgets)
* `src/page_crawler.py` — the per-site crawl frontier (`PageCrawler.crawl`)
* `src/classifier.py`   — the scoring engine (`LocationClassifier.classify_html`,
                          `classify_carrier`) and report serialization
* `src/run_full_crawl.py` — checkpoint/resume logic

Python strings are embedded as `List Char` (named `Str` below); Python sets of
strings are embedded as duplicate-free lists built with a guarded insert;
Python `urllib.parse.urlsplit`/`urljoin` are modelled by executable functions
faithful to CPython's behaviour on the URL shapes the crawler handles
(absolute `http(s)` URLs, protocol-relative, and plain relative references;
the `;params` component of `urlparse`, which the crawler never produces, is
not split out).  The HTML/regex collaborators (BeautifulSoup, `re`) are
modelled at their output interface: a `Page` carries the element lists and
regex match lists that the Python code reads off the parsed soup, and every
decision the classifier makes over those outputs is embedded directly.
-/

/-- Python strings are embedded as lists of characters. -/
abbrev Str := List Char

/-- Embed a Lean string literal as a `Str`. -/
def str (s : String) : Str := s.data

/-- Python `str.lower()` (the crawler only ever lowercases ASCII URLs/HTML). -/
def lowerStr (s : Str) : Str := s.map Char.toLower

/-- Membership test for a substring, as in Python's `needle in haystack`:
`containsSubGo pat s` is true iff `pat` occurs contiguously in `s`. -/
def containsSubGo (pat : Str) : Str → Bool
  | [] => pat.isPrefixOf []
  | c :: rest => pat.isPrefixOf (c :: rest) || containsSubGo pat rest

/-- Python `pat in hay` for strings. -/
def containsSub (hay pat : Str) : Bool := containsSubGo pat hay

/-- Python `str.strip()` (leading and trailing whitespace removed). -/
def trimStr (s : Str) : Str :=
  ((s.dropWhile Char.isWhitespace).reverse.dropWhile Char.isWhitespace).reverse

/-- Python `str.rstrip('/')`. -/
def pyRstripSlash (s : Str) : Str := (s.reverse.dropWhile (fun c => c = '/')).reverse

/-- Python `str.replace('www.', '')` specialised to the one pattern the
crawler uses (`utils.is_same_domain`, `utils.extract_domain`). -/
def stripWWW : Str → Str
  | 'w' :: 'w' :: 'w' :: '.' :: rest => stripWWW rest
  | c :: rest => c :: stripWWW rest
  | [] => []

/-- Python `len` on a string, via a tail-recursive accumulator so that it
evaluates iteratively on the multi-kilobyte HTML strings the classifier
measures. -/
def strLenGo : Nat → Str → Nat
  | n, [] => n
  | n, _ :: rest => strLenGo (n + 1) rest

/-- Python `len` on a string. -/
def strLen (s : Str) : Nat := strLenGo 0 s

/-- Python `haystack.count(pat)` (non-overlapping occurrence count), with
explicit fuel so that the definition is structural and kernel-evaluable. -/
def countOccGo (pat : Str) : Nat → Str → Nat
  | 0, _ => 0
  | _ + 1, [] => 0
  | fuel + 1, c :: rest =>
    if pat.isPrefixOf (c :: rest) then 1 + countOccGo pat fuel ((c :: rest).drop pat.length)
    else countOccGo pat fuel rest

/-- Python `haystack.count(pat)` for a non-empty pattern. -/
def countOcc (hay pat : Str) : Nat := countOccGo pat (strLen hay) hay

/-- `len(re.findall(r'latlng\s*\(', s))`: occurrences of `latlng` followed by
optional whitespace and an opening parenthesis (`classifier.py` line 576,
applied to lowercased HTML). -/
def countLatLngGo : Nat → Str → Nat
  | 0, _ => 0
  | _ + 1, [] => 0
  | fuel + 1, c :: rest =>
    if (str "latlng").isPrefixOf (c :: rest) then
      match ((c :: rest).drop 6).dropWhile Char.isWhitespace with
      | '(' :: tail => 1 + countLatLngGo fuel tail
      | _ => countLatLngGo fuel rest
    else countLatLngGo fuel rest

/-- `len(re.findall(r'latlng\s*\(', s))`. -/
def countLatLng (s : Str) : Nat := countLatLngGo (strLen s) s

/-! ## `config.py` -/
/-- `config.EXCLUDED_URL_PATTERNS` (lines 36–45). -/
def EXCLUDED_URL_PATTERNS : List Str :=
  [str "/blog", str "/news", str "/press", str "/career", str "/job", str "/apply",
   str "/login", str "/signin", str "/register", str "/cart", str "/checkout",
   str "/privacy", str "/terms", str "/legal", str "/cookie",
   str ".pdf", str ".jpg", str ".jpeg", str ".png", str ".gif", str ".svg", str ".webp",
   str ".mp4", str ".mp3", str ".avi", str ".mov",
   str ".zip", str ".rar", str ".exe", str ".dmg",
   str "facebook.com", str "twitter.com", str "linkedin.com", str "instagram.com",
   str "youtube.com", str "mailto:", str "tel:", str "javascript:"]

/-- `config.MAX_PAGES_PER_SITE` (line 16). -/
def MAX_PAGES_PER_SITE : Nat := 200

/-! ## The URL parsing collaborator (`urllib.parse`)

`utils.normalize_url` calls `urlparse` and `urljoin`.  These are embedded by
executable models of CPython's `urlsplit`/`urljoin` on the URL shapes the
crawler feeds them. -/
/-- Split a list at the first occurrence of a character: `some (a, b)` with
`s = a ++ c :: b` and `c ∉ a`, or `none` when `c` does not occur. -/
def splitAtFirst (c : Char) : Str → Option (Str × Str)
  | [] => none
  | a :: rest =>
    if a = c then some ([], rest)
    else (splitAtFirst c rest).map (fun p => (a :: p.1, p.2))

/-- The characters CPython allows in a URL scheme. -/
def schemeChar (c : Char) : Bool := c.isAlphanum || c = '+' || c = '-' || c = '.'

/-- CPython's validity test for the text before the first `:` to count as a
scheme: nonempty, leading letter, all characters scheme characters. -/
def schemeValid (s : Str) : Bool :=
  match s with
  | [] => false
  | c :: _ => c.isAlpha && s.all schemeChar

/-- A character that ends the network-location part of a URL. -/
def notNetlocEnd (c : Char) : Bool := c ≠ '/' && c ≠ '?' && c ≠ '#'

/-- The result of `urllib.parse.urlsplit`. -/
structure UrlParts where
  scheme : Str
  netloc : Str
  path : Str
  query : Str
  fragment : Str
deriving DecidableEq

/-- Model of `urllib.parse.urlsplit`: scheme up to a valid first `:`
(lowercased), netloc after `//` up to `/`, `?` or `#`, then the fragment is
split at the first `#` and the query at the first `?`. -/
def pyUrlsplit (url : Str) : UrlParts :=
  let p1 : Str × Str :=
    match splitAtFirst ':' url with
    | some (a, b) => if schemeValid a then (lowerStr a, b) else ([], url)
    | none => ([], url)
  let p2 : Str × Str :=
    if (str "//").isPrefixOf p1.2 then
      ((p1.2.drop 2).takeWhile notNetlocEnd, (p1.2.drop 2).dropWhile notNetlocEnd)
    else ([], p1.2)
  let p3 : Str × Str :=
    match splitAtFirst '#' p2.2 with
    | some (a, b) => (a, b)
    | none => (p2.2, [])
  let p4 : Str × Str :=
    match splitAtFirst '?' p3.1 with
    | some (a, b) => (a, b)
    | none => (p3.1, [])
  ⟨p1.1, p2.1, p4.1, p4.2, p3.2⟩

/-- Model of `urllib.parse.urlunsplit`. -/
def pyUrlunsplit (p : UrlParts) : Str :=
  let url := p.path
  let url :=
    if p.netloc ≠ [] ∨ (url ≠ [] ∧ (str "//").isPrefixOf url) then
      str "//" ++ p.netloc ++ (if url ≠ [] ∧ ¬ (str "/").isPrefixOf url then '/' :: url else url)
    else url
  let url := if p.scheme ≠ [] then p.scheme ++ ':' :: url else url
  let url := if p.query ≠ [] then url ++ '?' :: p.query else url
  if p.fragment ≠ [] then url ++ '#' :: p.fragment else url

/-- Python `s.split(c)`. -/
def splitOnChar (c : Char) : Str → List Str
  | [] => [[]]
  | a :: rest =>
    if a = c then [] :: splitOnChar c rest
    else
      match splitOnChar c rest with
      | [] => [[a]]
      | seg :: segs => (a :: seg) :: segs

/-- Python `'/'.join(segs)`. -/
def joinSlash : List Str → Str
  | [] => []
  | [seg] => seg
  | seg :: segs => seg ++ '/' :: joinSlash segs

/-- Model of `urllib.parse.urljoin` for the reference shapes the crawler
resolves against a page URL: empty references, references with their own
scheme, network-path and absolute-path references, and relative references
(merged against the base path with `.`/`..` segments resolved as in CPython).
-/
def pyUrljoin (base url : Str) : Str :=
  if url = [] then base
  else
    let b := pyUrlsplit base
    let u := pyUrlsplit url
    if u.scheme ≠ [] ∧ u.scheme ≠ b.scheme then
      pyUrlunsplit u
    else if u.netloc ≠ [] then
      pyUrlunsplit ⟨b.scheme, u.netloc, u.path, u.query, u.fragment⟩
    else if u.path = [] ∧ u.query = [] then
      pyUrlunsplit ⟨b.scheme, b.netloc, b.path, b.query, u.fragment⟩
    else if u.path = [] then
      pyUrlunsplit ⟨b.scheme, b.netloc, b.path, u.query, u.fragment⟩
    else
      let segments :=
        if (str "/").isPrefixOf u.path then splitOnChar '/' u.path
        else (splitOnChar '/' b.path).dropLast ++ splitOnChar '/' u.path
      let resolved := segments.foldl
        (fun acc seg =>
          if seg = str ".." then acc.dropLast
          else if seg = str "." then acc
          else acc ++ [seg]) []
      let resolved :=
        if segments.getLast? = some (str "..") ∨ segments.getLast? = some (str ".") then
          resolved ++ [([] : Str)]
        else resolved
      let path := joinSlash resolved
      let path := if path = [] then str "/" else path
      pyUrlunsplit ⟨b.scheme, b.netloc, path, u.query, u.fragment⟩

/-! ## `utils.py` -/
/-- `utils.normalize_url` (lines 11–51): reject empty / excluded-pattern URLs,
resolve protocol-relative and relative forms against the base, keep only
`http`/`https`, rebuild without the fragment with a lowercased netloc, and
strip a trailing slash unless the path is root. -/
def normalize_url (url0 base_url : Str) : Option Str :=
  if trimStr url0 = [] then none
  else
    let url := trimStr url0
    let url_lower := lowerStr url
    if EXCLUDED_URL_PATTERNS.any (fun p => containsSub url_lower p) then none
    else
      let url :=
        if (str "//").isPrefixOf url then str "https:" ++ url
        else if (str "/").isPrefixOf url then pyUrljoin base_url url
        else if ¬ (str "http").isPrefixOf url then pyUrljoin base_url url
        else url
      let parsed := pyUrlsplit url
      if parsed.scheme ≠ str "http" ∧ parsed.scheme ≠ str "https" then none
      else
        let normalized := parsed.scheme ++ str "://" ++ lowerStr parsed.netloc ++ parsed.path
        let normalized := if parsed.query ≠ [] then normalized ++ '?' :: parsed.query else normalized
        let normalized :=
          if normalized.getLast? = some '/' ∧ parsed.path ≠ str "/" then normalized.dropLast
          else normalized
        some normalized

/-- `utils.is_same_domain` (lines 54–68). -/
def is_same_domain (url base_domain : Str) : Bool :=
  let url_domain := stripWWW (lowerStr (pyUrlsplit url).netloc)
  let base := stripWWW (lowerStr base_domain)
  url_domain = base || ('.' :: base).isSuffixOf url_domain

/-- `utils.extract_domain` (lines 71–74). -/
def extract_domain (url : Str) : Str := stripWWW (lowerStr (pyUrlsplit url).netloc)

/-! ## `page_crawler.py`: URL predicates -/
/-- The keyword list inside `PageCrawler._is_pdf_or_map` (lines 337–338). -/
def pdf_keywords : List Str :=
  [str "map", str "service", str "terminal", str "location", str "network",
   str "coverage", str "facility", str "directory"]

/-- `PageCrawler._is_pdf_or_map` (lines 332–340): a URL containing `.pdf`
together with a location-flavoured keyword. -/
def is_pdf_or_map (url : Str) : Bool :=
  let url_lower := lowerStr url
  if containsSub url_lower (str ".pdf") then
    pdf_keywords.any (fun kw => containsSub url_lower kw)
  else false

/-- The suffix list inside `PageCrawler._is_index_page` (lines 369–377). -/
def crawler_index_patterns : List Str :=
  [str "/locations", str "/locations.html", str "/our-locations",
   str "/terminals", str "/terminal-locations", str "/all-locations",
   str "/service-centers", str "/service-center", str "/service-center-locator",
   str "/service-locations", str "/facilities", str "/branches",
   str "/find-us", str "/find-location", str "/branch-locator",
   str "/load-board/map", str "/loadboard/map", str "/map", str "/map.html",
   str "/locator", str "/store-locator", str "/dealer-locator"]

/-- `PageCrawler._is_index_page` (lines 365–384). -/
def crawler_is_index_page (url : Str) : Bool :=
  let url_lower := pyRstripSlash (lowerStr url)
  crawler_index_patterns.any (fun pat => pat.isSuffixOf url_lower) ||
    (containsSub url_lower (str "servicemap") && containsSub url_lower (str ".pdf"))

/-- The marker list inside `PageCrawler._is_tool_subdomain` (lines 345–348). -/
def tool_patterns : List Str :=
  [str "ext-web.", str "tools.", str "apps.", str "app.", str "my.", str "portal.",
   str "locator.", str "finder.", str "search."]

/-- `PageCrawler._is_tool_subdomain` (lines 342–349). -/
def is_tool_subdomain (url : Str) : Bool :=
  tool_patterns.any (fun p => containsSub (lowerStr url) p)

/-- `PageCrawler._is_same_site` (lines 351–363). -/
def is_same_site (base_url url : Str) : Bool :=
  let url_domain := lowerStr (pyUrlsplit url).netloc
  let base_domain := stripWWW (lowerStr (pyUrlsplit base_url).netloc)
  containsSub url_domain base_domain || ('.' :: base_domain).isSuffixOf url_domain

/-! ## `page_crawler.py`: the crawl frontier

`PageCrawler.crawl` (lines 68–178) with `_crawl_page` (lines 180–258).  The
Render Collaborator (Playwright) is modelled by a list of `FetchOutcome`s,
consumed one per actual page fetch; running out of outcomes behaves as a
failed fetch.  A successful outcome carries the page's `extracted_links`
(already normalized and same-domain filtered, as produced by
`_extract_links_js`).  `fetchLog` and `enqLog` are ghost fields recording,
in order, each invocation of `_crawl_page` and each URL ever placed on the
frontier; they affect no decision. -/
/-- The Render Collaborator's answer for one page visit. -/
inductive FetchOutcome where
  | failure : FetchOutcome
  | success : List Str → FetchOutcome
deriving DecidableEq

/-- Python `set.add`, on the duplicate-free list embedding of a set. -/
def pySetAdd (x : Str) (s : List Str) : List Str := if x ∈ s then s else s ++ [x]

/-- Python `list.insert(1, x)` (clamped to the end for short lists). -/
def listInsert1 (x : Str) : List Str → List Str
  | [] => [x]
  | h :: t => h :: x :: t

/-- The mutable state of one `PageCrawler` instance during `crawl`. -/
structure CrawlState where
  base_url : Str
  urls_to_visit : List Str
  visited : List Str
  failed : List Str
  fetchLog : List Str
  enqLog : List Str
deriving DecidableEq

/-- The link-queueing block of `PageCrawler.crawl` (lines 144–158): an
unseen URL goes to the front if it is an index page or location PDF, to the
second position if it is on a tool subdomain, and to the back if it is on
the same site. -/
def insertLink (s : CrawlState) (new_url : Str) : CrawlState :=
  if new_url ∉ s.visited ∧ new_url ∉ s.failed ∧ new_url ∉ s.urls_to_visit then
    if crawler_is_index_page new_url || is_pdf_or_map new_url then
      { s with urls_to_visit := new_url :: s.urls_to_visit, enqLog := s.enqLog ++ [new_url] }
    else if is_tool_subdomain new_url then
      { s with urls_to_visit := listInsert1 new_url s.urls_to_visit, enqLog := s.enqLog ++ [new_url] }
    else if is_same_site s.base_url new_url then
      { s with urls_to_visit := s.urls_to_visit ++ [new_url], enqLog := s.enqLog ++ [new_url] }
    else s
  else s

/-- One actual page visit: `_crawl_page` adds the URL to `visited` on entry
(line 182); a failure additionally records it in `failed` (lines 193, 201,
254, 257); a success queues the page's extracted links. -/
def crawlVisit (s : CrawlState) (u : Str) (rest : List Str) (out : FetchOutcome) : CrawlState :=
  let s1 := { s with
    urls_to_visit := rest
    visited := pySetAdd u s.visited
    fetchLog := s.fetchLog ++ [u] }
  match out with
  | .failure => { s1 with failed := pySetAdd u s1.failed }
  | .success links => links.foldl insertLink s1

/-- The main loop of `PageCrawler.crawl` (lines 122–165): pop the front of
the frontier, skip URLs already visited or failed, and stop when the
frontier is empty or `len(visited)` reaches `MAX_PAGES_PER_SITE`.  `fuel`
bounds the number of iterations. -/
def crawlLoop : Nat → CrawlState → List FetchOutcome → CrawlState
  | 0, s, _ => s
  | fuel + 1, s, outs =>
    match s.urls_to_visit with
    | [] => s
    | u :: rest =>
      if MAX_PAGES_PER_SITE ≤ s.visited.length then s
      else if u ∈ s.visited ∨ u ∈ s.failed then
        crawlLoop fuel { s with urls_to_visit := rest } outs
      else
        match outs with
        | [] => crawlLoop fuel (crawlVisit s u rest .failure) []
        | o :: outs2 => crawlLoop fuel (crawlVisit s u rest o) outs2

/-- Seed-queue construction in `PageCrawler.crawl` (lines 79–96): the
homepage first, then the index/PDF seeds, then at most 50 other seeds.
`initial_urls` models the iteration order of the discovery result set (a
Python set, hence duplicate-free). -/
def buildSeedQueue (base_url0 : Str) (initial_urls : List Str) : List Str :=
  let base := pyRstripSlash base_url0
  let candidates := initial_urls.filter (fun u => u ≠ base ∧ u ≠ base ++ [ '/' ])
  let index_urls := candidates.filter (fun u => crawler_is_index_page u || is_pdf_or_map u)
  let other_urls := candidates.filter (fun u => ¬ (crawler_is_index_page u || is_pdf_or_map u))
  base :: (index_urls ++ other_urls.take 50)

/-- The state of a `PageCrawler` at the top of the main loop. -/
def initCrawlState (base_url0 : Str) (initial_urls : List Str) : CrawlState :=
  let q := buildSeedQueue base_url0 initial_urls
  { base_url := pyRstripSlash base_url0
    urls_to_visit := q
    visited := []
    failed := []
    fetchLog := []
    enqLog := q }

/-- `PageCrawler.crawl`: build the seed queue and run the main loop. -/
def crawl_model (base_url : Str) (initial_urls : List Str)
    (outs : List FetchOutcome) (fuel : Nat) : CrawlState :=
  crawlLoop fuel (initCrawlState base_url initial_urls) outs

/-! ## `classifier.py`: data model

`LocationSignal`'s `details`/`evidence` fields are free-text diagnostics that
no code path ever branches on; they are elided from the embedding. -/
/-- `classifier.LocationSignal` (lines 19–26). -/
structure LocationSignal where
  signal_type : Str
  confidence : Str
  points : Int
deriving DecidableEq

/-- `classifier.PageClassification` (lines 29–37). -/
structure PageClassification where
  url : Str
  title : Str
  signals : List LocationSignal
  total_score : Int
  is_location_page : Bool
deriving DecidableEq

/-- `classifier.LOCATION_PAGE_THRESHOLD` (line 53). -/
def LOCATION_PAGE_THRESHOLD : Int := 3

/-- An `<a href=...>` element as the classifier reads it off the soup. -/
structure Anchor where
  href : Str
  text : Str
deriving DecidableEq

/-- An `<iframe>` element as the classifier reads it off the soup. -/
structure IFrameData where
  src : Str
  title : Str
  name : Str
deriving DecidableEq

/-- A `<form>` element as `_detect_location_finder_form` reads it:
`form_html` models `str(form)`, `form_action` the `action` attribute,
`form_text` `form.get_text()`. -/
structure FormData where
  form_html : Str
  form_action : Str
  form_text : Str
deriving DecidableEq

/-- One rendered page, at the interface between the parsing/regex
collaborators (BeautifulSoup, `re`) and the classifier's decisions:

* `html` — the raw HTML string (`classify_html`'s `html` argument);
* `title` — `soup.title.string` when present;
* `htmlLang` — the `lang` attribute of the `<html>` tag (`[]` when absent);
* `addressMatches` — the concatenated `findall` results of the two
  `ADDRESS_PATTERNS` regexes over the main-content text (text extracted
  after header/footer/nav removal, `_count_real_addresses` lines 426–437);
* `latMatches` — the `findall` captures of the `lat/latitude` coordinate
  regex over `html` (`_count_coordinates` lines 466–467);
* `latlngMatches` — the captures of the `LatLng(x, y)` regex (lines 469–470);
* `anchors`, `iframes`, `forms` — the element lists `soup.find_all` returns;
* `jsonLdTexts` — for each parseable `application/ld+json` script, the
  lowercased `json.dumps` serialization (`_detect_json_ld_strict` 645–650).
-/
structure Page where
  html : Str
  title : Option Str
  htmlLang : Str
  addressMatches : List Str
  latMatches : List Str
  latlngMatches : List (Str × Str)
  anchors : List Anchor
  iframes : List IFrameData
  forms : List FormData
  jsonLdTexts : List Str
deriving DecidableEq

/-! ## `classifier.py`: Stage-1 disqualifiers -/
/-- The error-title list in `_is_error_page` (lines 368–369). -/
def error_titles : List Str :=
  [str "404", str "not found", str "page not found", str "error", str "oops",
   str "page does not exist", str "page doesn\x27t exist"]

/-- `LocationClassifier._is_error_page` (lines 363–382). -/
def is_error_page (html title : Str) : Bool :=
  let title_lower := lowerStr title
  error_titles.any (fun err => containsSub title_lower err) ||
    containsSub (lowerStr html) (str "<h1>404") ||
    containsSub (lowerStr html) (str "<h1>page not found") ||
    strLen html < 2000

/-- `LocationClassifier._is_non_english` (lines 384–391); the argument is the
`lang` attribute of the `<html>` tag, `[]` when the tag or attribute is
absent. -/
def is_non_english (htmlLang : Str) : Bool :=
  let lang := lowerStr htmlLang
  lang ≠ [] && ¬ (str "en").isPrefixOf lang

/-- The keyword list in `_has_location_url` (lines 396–399). -/
def location_url_keywords : List Str :=
  [str "location", str "terminal", str "service-center", str "service-location",
   str "facility", str "branch", str "find-us", str "depot", str "yard",
   str "loadboard", str "load-board", str "/map", str "locator", str "finder",
   str "servicemap", str "branch-locator", str "store-locator"]

/-- `LocationClassifier._has_location_url` (lines 393–400). -/
def has_location_url (url_lower : Str) : Bool :=
  location_url_keywords.any (fun kw => containsSub url_lower kw)

/-- The pattern list in `_is_excluded_page_type` (lines 406–414). -/
def exclude_page_patterns : List Str :=
  [str "quote", str "get-a-quote", str "instant-quote", str "request-quote",
   str "career", str "job", str "apply", str "hiring",
   str "login", str "signin", str "register", str "signup",
   str "blog", str "news", str "press-release", str "article",
   str "investor", str "annual-report", str "earnings",
   str "privacy", str "terms", str "cookie", str "legal",
   str "cart", str "checkout", str "order"]

/-- `LocationClassifier._is_excluded_page_type` (lines 402–421). -/
def is_excluded_page_type (url_lower title : Str) : Bool :=
  let title_lower := lowerStr title
  exclude_page_patterns.any (fun ex => containsSub url_lower ex) ||
    exclude_page_patterns.any (fun ex => containsSub title_lower ex)

/-! ## `classifier.py`: the INDEX-page URL patterns

`INDEX_URL_PATTERNS` (lines 61–87) are regexes compiled with `IGNORECASE`
and applied with `search` to the already-lowercased URL.  Each is either a
plain substring pattern or a substring anchored at the end by `$` (with
`/?$` allowing one trailing slash); they are translated accordingly. -/
/-- `p` occurs at the end of `u`, optionally followed by a single slash
(the translation of a regex `p/?$`). -/
def endsWithOptSlash (u p : Str) : Bool :=
  p.isSuffixOf u || (p ++ [ '/' ]).isSuffixOf u

/-- `any(p.search(url_lower) for p in self.index_patterns)`
(`classify_html` line 255, patterns from lines 61–87). -/
def matchesIndexPattern (url_lower : Str) : Bool :=
  endsWithOptSlash url_lower (str "/locations") ||
  containsSub url_lower (str "/locations.html") ||
  containsSub url_lower (str "/our-locations") ||
  endsWithOptSlash url_lower (str "/our-locations") ||
  endsWithOptSlash url_lower (str "/all-locations") ||
  containsSub url_lower (str "centersresult") ||
  containsSub url_lower (str "/coverage") ||
  endsWithOptSlash url_lower (str "/terminals") ||
  (str "/terminals").isSuffixOf url_lower ||
  endsWithOptSlash url_lower (str "terminals") ||
  endsWithOptSlash url_lower (str "/service-centers") ||
  endsWithOptSlash url_lower (str "/service-center") ||
  containsSub url_lower (str "service-center-locator") ||
  containsSub url_lower (str "/service-locations") ||
  endsWithOptSlash url_lower (str "/facilities") ||
  endsWithOptSlash url_lower (str "/branches") ||
  endsWithOptSlash url_lower (str "/find-us") ||
  endsWithOptSlash url_lower (str "/terminal-locations") ||
  containsSub url_lower (str "/branch-locator") ||
  containsSub url_lower (str "/map.html") ||
  containsSub url_lower (str "servicemap.pdf") ||
  endsWithOptSlash url_lower (str "/locator") ||
  containsSub url_lower (str "/find-location") ||
  containsSub url_lower (str "/store-locator") ||
  containsSub url_lower (str "/dealer-locator")

/-! ## `classifier.py`: detectors -/
/-- `_count_real_addresses` (lines 423–461), taking the regex matches over
the main-content text: distinct trimmed matches longer than 15 characters,
5+ giving the high-confidence 10-point `ADDRESS_LIST` signal and 2–4 the
3-point `ADDRESS_PAIR` signal. -/
def count_real_addresses (addressMatches : List Str) : Nat × Option LocationSignal :=
  let addresses_found := ((addressMatches.map trimStr).filter (fun c => 15 < c.length)).dedup
  let count := addresses_found.length
  if 5 ≤ count then (count, some ⟨str "ADDRESS_LIST", str "high", 10⟩)
  else if 2 ≤ count then (count, some ⟨str "ADDRESS_PAIR", str "medium", 3⟩)
  else (count, none)

/-- `_count_coordinates` (lines 463–491): distinct latitude captures plus
distinct `LatLng(...)` captures; 3+ gives the 8-point high-confidence
signal, 1–2 the 2-point medium one. -/
def count_coordinates (latMatches : List Str) (latlngMatches : List (Str × Str)) :
    Nat × Option LocationSignal :=
  let count := latMatches.dedup.length + latlngMatches.dedup.length
  if 3 ≤ count then (count, some ⟨str "COORDINATE_DATA", str "high", 8⟩)
  else if 1 ≤ count then (count, some ⟨str "COORDINATE_DATA", str "medium", 2⟩)
  else (count, none)

/-- `real_map_patterns` in `_detect_google_maps_strict` (lines 502–508). -/
def real_map_patterns : List Str :=
  [str "google.com/maps/embed", str "/maps/d/embed", str "maps.google.com/maps?",
   str "google.com/maps?q=", str "google.com/maps/place"]

/-- `exclude_patterns` in `_detect_google_maps_strict` (lines 511–518). -/
def gmaps_exclude_patterns : List Str :=
  [str "googletagmanager", str "recaptcha", str "analytics", str "gtag",
   str "fonts.googleapis", str "ajax.googleapis"]

/-- The anchor filter `re.compile(r'google\.com/maps|maps\.google\.com', re.I)`
applied to `href` (line 524). -/
def isMapsHref (href : Str) : Bool :=
  containsSub (lowerStr href) (str "google.com/maps") ||
    containsSub (lowerStr href) (str "maps.google.com")

/-- `map_init_patterns` in `_detect_google_maps_strict` (lines 567–568). -/
def map_init_patterns : List Str :=
  [str "new google.maps.map", str "google.maps.marker", str "google.maps.infowindow",
   str "initmap", str "mapinit", str "loadmap"]

/-- `_detect_google_maps_strict` (lines 493–596). -/
def detect_google_maps_strict (html : Str) (anchors : List Anchor)
    (iframes : List IFrameData) : Option LocationSignal :=
  let html_lower := lowerStr html
  let has_real_map := real_map_patterns.any (fun p => containsSub html_lower p)
  let maps_link_count := (anchors.filter (fun a => isMapsHref a.href)).length
  let iframeHit := iframes.any (fun f =>
    let src := lowerStr f.src
    real_map_patterns.any (fun p => containsSub src p) &&
      ¬ gmaps_exclude_patterns.any (fun e => containsSub src e))
  if has_real_map ∧ iframeHit then
    if maps_link_count < 3 then some ⟨str "GOOGLE_MAPS_EMBED", str "medium", 3⟩
    else some ⟨str "GOOGLE_MAPS_EMBED", str "high", 5⟩
  else if has_real_map ∧ 3 ≤ maps_link_count then
    some ⟨str "GOOGLE_MAPS_LINK", str "high", 5⟩
  else if has_real_map ∧ maps_link_count = 1 then
    some ⟨str "GOOGLE_MAPS_LINK", str "low", 1⟩
  else if containsSub html_lower (str "maps.googleapis.com/maps/api/js") then
    if map_init_patterns.any (fun p => containsSub html_lower p) then
      let marker_count := countOcc html_lower (str "google.maps.marker")
        + countOcc html_lower (str "addmarker") + countOcc html_lower (str "new marker")
      let latlng_count := countLatLng html_lower
      if 3 ≤ marker_count ∨ 3 ≤ latlng_count then
        some ⟨str "GOOGLE_MAPS_API", str "high", 5⟩
      else some ⟨str "GOOGLE_MAPS_API", str "low", 2⟩
    else none
  else none

/-- `finder_keywords` in `_detect_location_finder_form` (lines 608–610). -/
def finder_keywords : List Str :=
  [str "find location", str "find terminal", str "find facility", str "locate",
   str "search location", str "find near", str "nearby",
   str "service center locator", str "terminal locator"]

/-- The radius/distance terms (line 615). -/
def radius_terms : List Str := [str "radius", str "distance", str "miles", str "within"]

/-- The quote-form terms (line 619). -/
def quote_terms : List Str := [str "quote", str "lead", str "contact", str "order", str "ship"]

/-- `_detect_location_finder_form` (lines 598–638): the first form with
finder vocabulary and no quote vocabulary yields the 8-point
`LOCATION_FINDER` signal; otherwise the first form with a radius/distance
term and no quote vocabulary yields the 4-point `LOCATION_SEARCH` signal. -/
def detect_location_finder_form : List FormData → Option LocationSignal
  | [] => none
  | f :: rest =>
    let fh := lowerStr f.form_html
    let fa := lowerStr f.form_action
    let ft := lowerStr f.form_text
    let has_finder_language :=
      finder_keywords.any (fun kw => containsSub fh kw || containsSub ft kw)
    let has_radius := radius_terms.any (fun r => containsSub fh r)
    let is_quote_form := quote_terms.any (fun q => containsSub fh q || containsSub fa q)
    if has_finder_language ∧ ¬ is_quote_form then
      some ⟨str "LOCATION_FINDER", str "high", 8⟩
    else if has_radius ∧ ¬ is_quote_form then
      some ⟨str "LOCATION_SEARCH", str "medium", 4⟩
    else detect_location_finder_form rest

/-- `_detect_json_ld_strict` (lines 640–667): total occurrence count of
`"streetaddress"` and `"postalcode"` over the serialized JSON-LD blocks;
4+ yields the 5-point signal. -/
def detect_json_ld_strict (jsonLdTexts : List Str) : Option LocationSignal :=
  let location_count :=
    (jsonLdTexts.map (fun d =>
      countOcc d (str "\x22streetaddress\x22") + countOcc d (str "\x22postalcode\x22"))).sum
  if 4 ≤ location_count then some ⟨str "JSON_LD_LOCATIONS", str "high", 5⟩ else none

/-- `MAP_LIBRARIES` minus `google_maps` (lines 135–140), signatures
pre-lowercased as in `sig.lower() in html_lower`. -/
def map_libraries_rest : List (Str × List Str) :=
  [(str "MAP_MAPBOX", [str "mapbox.com", str "mapboxgl", str "mapbox-gl"]),
   (str "MAP_LEAFLET", [str "leafletjs.com", str "l.map", str "leaflet.js"]),
   (str "MAP_ARCGIS", [str "arcgis.com", str "esri.com", str "featureserver", str "mapserver"])]

/-- `_detect_interactive_maps` (lines 780–800): one 3-point signal per
library whose signature occurs in the lowercased HTML. -/
def detect_interactive_maps (html : Str) : List LocationSignal :=
  let html_lower := lowerStr html
  map_libraries_rest.filterMap (fun lib =>
    if lib.2.any (fun sig => containsSub html_lower sig) then
      some ⟨lib.1, str "high", 3⟩
    else none)

/-- The keyword list in `_detect_location_iframes` (lines 1130–1131). -/
def iframe_location_keywords : List Str :=
  [str "map", str "location", str "store", str "dealer", str "terminal",
   str "branch", str "office", str "locator"]

/-- `_detect_location_iframes` (lines 1123–1157): non-Google-Maps iframes
whose src/title/name carries a location keyword; any hit yields one
3-point signal. -/
def detect_location_iframes (iframes : List IFrameData) : List LocationSignal :=
  let hits := iframes.filter (fun f =>
    let src := lowerStr f.src
    let t := lowerStr f.title
    let n := lowerStr f.name
    ¬ (containsSub src (str "google.com/maps") || containsSub src (str "maps.google")) &&
      iframe_location_keywords.any (fun kw =>
        containsSub src kw || containsSub t kw || containsSub n kw))
  if hits ≠ [] then [⟨str "LOCATION_IFRAME", str "medium", 3⟩] else []

/-- `high_value_keywords` in `_detect_pdf_links` (lines 869–870). -/
def high_value_pdf_keywords : List Str :=
  [str "servicemap", str "service-map", str "terminal-map", str "location-map",
   str "coverage-map", str "network-map", str "facility-map", str "directory"]

/-- `regular_keywords` in `_detect_pdf_links` (line 873). -/
def regular_pdf_keywords : List Str :=
  [str "location", str "terminal", str "service", str "facility", str "map"]

/-- `_detect_pdf_links` (lines 860–903): PDFs with a high-value map keyword
give the 8-point `PDF_SERVICEMAP` signal, otherwise location-flavoured
PDFs give the 2-point `PDF_LOCATIONS` signal. -/
def detect_pdf_links (anchors : List Anchor) : List LocationSignal :=
  let pdfAnchors := anchors.filter (fun a => containsSub (lowerStr a.href) (str ".pdf"))
  let high := pdfAnchors.filter (fun a =>
    high_value_pdf_keywords.any (fun kw => containsSub (lowerStr a.href) kw))
  let regular := pdfAnchors.filter (fun a =>
    ¬ high_value_pdf_keywords.any (fun kw => containsSub (lowerStr a.href) kw) &&
      regular_pdf_keywords.any (fun kw =>
        containsSub (lowerStr a.href) kw || containsSub (lowerStr a.text) kw))
  if high ≠ [] then [⟨str "PDF_SERVICEMAP", str "high", 8⟩]
  else if regular ≠ [] then [⟨str "PDF_LOCATIONS", str "medium", 2⟩]
  else []

/-! ## `classifier.py`: `classify_html` -/
/-- The fixed disqualification signal (`classify_html` lines 212–218,
225–231, 238–244; the three branches differ only in the elided free-text
fields). -/
def disqualifiedSignal : LocationSignal := ⟨str "DISQUALIFIED", str "high", 0⟩

/-- Steps 2–3 of `classify_html` (lines 248–311): the signal list collected
so far and the `has_primary_signal` flag, after the five primary detectors
and the URL-context fallback. -/
def primary_signals (p : Page) (url_lower : Str) : List LocationSignal × Bool :=
  let is_index_page := matchesIndexPattern url_lower
  let signals1 : List LocationSignal :=
    if is_index_page then [⟨str "INDEX_PAGE", str "high", 15⟩] else []
  let prim1 := is_index_page
  let ac := count_real_addresses p.addressMatches
  let signals2 := signals1 ++ ac.2.toList
  let prim2 := prim1 || decide (5 ≤ ac.1)
  let cc := count_coordinates p.latMatches p.latlngMatches
  let signals3 := signals2 ++ cc.2.toList
  let prim3 := prim2 || decide (3 ≤ cc.1)
  let ms := detect_google_maps_strict p.html p.anchors p.iframes
  let signals4 := signals3 ++ ms.toList
  let prim4 := prim3 || (match ms with | some s => decide (5 ≤ s.points) | none => false)
  let ls := detect_location_finder_form p.forms
  let signals5 := signals4 ++ ls.toList
  let prim5 := prim4 || ls.isSome
  let urlctx := !prim5 && has_location_url url_lower
  let signals6 :=
    if urlctx then signals5 ++ [⟨str "URL_CONTEXT", str "medium", 3⟩] else signals5
  (signals6, prim5 || urlctx)

/-- Step 5 of `classify_html` (lines 329–347): the secondary signals. -/
def secondary_signals (p : Page) : List LocationSignal :=
  (detect_json_ld_strict p.jsonLdTexts).toList ++ detect_interactive_maps p.html
    ++ detect_location_iframes p.iframes ++ detect_pdf_links p.anchors

/-- `LocationClassifier.classify_html` (lines 194–357): Stage-1
disqualifiers, the Stage-2 primary-signal gate (`primary_signals`), Stage-5
secondary signals, and the final clamped score.  Note that on the gate's
reject path (lines 316–326) the collected signals are kept but
`total_score` is set to `0`, and that the acceptance test on line 355 uses
the unclamped total. -/
def classify_html (p : Page) (url : Str) : PageClassification :=
  let title := (p.title.map trimStr).getD []
  let url_lower := lowerStr url
  if is_error_page p.html title then
    ⟨url, title, [disqualifiedSignal], 0, false⟩
  else if is_non_english p.htmlLang && !has_location_url url_lower then
    ⟨url, title, [disqualifiedSignal], 0, false⟩
  else if is_excluded_page_type url_lower title then
    ⟨url, title, [disqualifiedSignal], 0, false⟩
  else
    let sp := primary_signals p url_lower
    if !sp.2 then
      ⟨url, title,
        (if sp.1 = [] then [⟨str "NO_LOCATION_CONTENT", str "high", 0⟩] else sp.1),
        0, false⟩
    else
      let signals7 := sp.1 ++ secondary_signals p
      let total := (signals7.map (fun s => s.points)).sum
      ⟨url, title, signals7, max 0 total, decide (LOCATION_PAGE_THRESHOLD ≤ total)⟩

/-! ## `classifier.py`: per-carrier aggregation and the modality report -/
/-- `classifier.CarrierReport` (lines 40–49). -/
structure CarrierReport where
  carrier_name : Str
  domain : Str
  total_pages : Nat
  location_pages : Nat
  modalities_found : List (Str × Nat)
  top_pages : List PageClassification
  recommended_approach : Str
deriving DecidableEq

/-- Increment a key in the association-list embedding of
`defaultdict(int)`. -/
def bumpCount (key : Str) : List (Str × Nat) → List (Str × Nat)
  | [] => [(key, 1)]
  | (k, v) :: rest =>
    if k = key then (k, v + 1) :: rest else (k, v) :: bumpCount key rest

/-- Python's stable descending insertion for
`list.sort(key=lambda x: x.total_score, reverse=True)`: insert after
every earlier element with a score at least as large. -/
def insertByScore (x : PageClassification) : List PageClassification → List PageClassification
  | [] => [x]
  | y :: t =>
    if y.total_score < x.total_score then x :: y :: t
    else y :: insertByScore x t

/-- Stable descending sort by `total_score`. -/
def sortByScore (l : List PageClassification) : List PageClassification :=
  l.foldl (fun acc x => insertByScore x acc) []

/-- Python `'; '.join`. -/
def joinSemicolon : List Str → Str
  | [] => []
  | [x] => x
  | x :: rest => x ++ str "; " ++ joinSemicolon rest

/-- `_generate_recommendation` (lines 1228–1256). -/
def generate_recommendation (modality_counts : List (Str × Nat)) : Str :=
  if modality_counts = [] then str "No location data detected - manual review needed"
  else
    let has := fun (k : Str) => modality_counts.any (fun m => m.1 = k)
    let recs : List Str :=
      (if has (str "ADDRESS_LIST") || has (str "ADDRESS_PAIR") then
        [str "Parse addresses from HTML"] else []) ++
      (if has (str "GOOGLE_MAPS_EMBED") || has (str "GOOGLE_MAPS_API") then
        [str "Extract from Google Maps embed"] else []) ++
      (if has (str "GOOGLE_MAPS_LINKS") then [str "Parse Google Maps URLs"] else []) ++
      (if modality_counts.any (fun m => containsSub m.1 (str "MAP_")) then
        [str "Query map API/data source"] else []) ++
      (if has (str "PDF_LOCATIONS") then [str "Parse PDF documents"] else []) ++
      (if has (str "LOCATION_SEARCH") then [str "Automate location search form"] else []) ++
      (if has (str "JSON_LD_LOCATION") then [str "Parse JSON-LD structured data"] else [])
    if recs = [] then str "Manual review needed"
    else joinSemicolon recs

/-- The aggregation loop of `LocationClassifier.classify_carrier`
(lines 1183–1226), factored over the per-file classification results: each
accepted page bumps `location_pages` and, for each of its
positive-point signals, the modality count; accepted pages are then sorted
by score descending and truncated to 20.  Reading the page files and
classifying each one (`classify_html`) is modelled separately. -/
def classify_carrier_aggregate (carrier_name domain : Str)
    (classifications : List PageClassification) : CarrierReport :=
  let accepted := classifications.filter (fun c => c.is_location_page)
  let modality_counts := accepted.foldl
    (fun counts c =>
      (c.signals.filter (fun s => 0 < s.points)).foldl
        (fun cs s => bumpCount s.signal_type cs) counts)
    []
  let sorted := sortByScore accepted
  { carrier_name := carrier_name
    domain := domain
    total_pages := classifications.length
    location_pages := accepted.length
    modalities_found := modality_counts
    top_pages := sorted.take 20
    recommended_approach := generate_recommendation modality_counts }

/-- One page entry of the structured (JSON) modality report
(`generate_modality_report` lines 1364–1372). -/
structure JsonPageEntry where
  url : Str
  title : Str
  score : Int
  signals : List LocationSignal
deriving DecidableEq

/-- One carrier entry of the structured (JSON) modality report
(`generate_modality_report` lines 1354–1375). -/
structure JsonCarrierEntry where
  carrier_name : Str
  domain : Str
  total_pages : Nat
  location_pages : Nat
  modalities_found : List (Str × Nat)
  recommended_approach : Str
  top_pages : List JsonPageEntry
deriving DecidableEq

/-- The JSON serialization of one `CarrierReport` inside
`generate_modality_report` (lines 1356–1375): all scalar fields verbatim,
and the first 10 top pages with url, title, score and the positive-point
signals. -/
def toJsonEntry (r : CarrierReport) : JsonCarrierEntry :=
  { carrier_name := r.carrier_name
    domain := r.domain
    total_pages := r.total_pages
    location_pages := r.location_pages
    modalities_found := r.modalities_found
    recommended_approach := r.recommended_approach
    top_pages := (r.top_pages.take 10).map (fun p =>
      ⟨p.url, p.title, p.total_score, p.signals.filter (fun s => 0 < s.points)⟩) }

/-- Modelled from the spec: reconstructing a report's `top_pages` ordering
from the structured report format ("serializing a `SiteReport` to the
structured report format and reconstructing it yields the same `top_pages`
ordering and `modality_counts`").  The structured format stores, per top
page, its url, title and score, so the reconstructed ordering is the
sequence of those triples; `modality_counts` is stored verbatim. -/
def reconstructTopPages (e : JsonCarrierEntry) : List (Str × Str × Int) :=
  e.top_pages.map (fun p => (p.url, p.title, p.score))

/-- The `top_pages` ordering of the original report, as the same triples. -/
def reportTopPages (r : CarrierReport) : List (Str × Str × Int) :=
  r.top_pages.map (fun p => (p.url, p.title, p.total_score))

/-! ## `run_full_crawl.py`: checkpoint / resume -/
/-- The checkpoint record written by `save_checkpoint` (lines 113–122);
per-site outcome records are abstract (`α`). -/
structure Checkpoint (α : Type) where
  completed_count : Nat
  start_idx : Int
  last_idx : Int
  results : List α
deriving DecidableEq

/-- `save_checkpoint(results, start_idx)` (lines 113–122):
`last_idx = start_idx + len(results) - 1`. -/
def save_checkpoint {α : Type} (results : List α) (start_idx : Int) : Checkpoint α :=
  { completed_count := results.length
    start_idx := start_idx
    last_idx := start_idx + results.length - 1
    results := results }

/-- `load_checkpoint()` (lines 125–130): resume index
`last_idx + 1` and the stored outcome list, or `(0, [])` with no
checkpoint. -/
def load_checkpoint {α : Type} (cp : Option (Checkpoint α)) : Int × List α :=
  match cp with
  | some c => (c.last_idx + 1, c.results)
  | none => (0, [])

/-- The checkpoint-relevant behaviour of `run_full_crawl` (lines 133–202):
with `--resume` the start index and previous outcomes come from the
checkpoint, otherwise from `--start` with no previous outcomes; the run
then processes the carriers from the start index onward (producing
`newResults`, one outcome per processed carrier) and after the final batch
the checkpoint on disk is `save_checkpoint(previous ++ newResults,
start_idx)` (lines 163, 191–194). -/
def run_final_checkpoint {α : Type} (start_arg : Int) (resume : Bool)
    (cp : Option (Checkpoint α)) (newResults : List α) : Checkpoint α :=
  let sp := if resume then load_checkpoint cp else (start_arg, [])
  save_checkpoint (sp.2 ++ newResults) sp.1

/-- Inert filler standing for location-free page markup: 2000 characters,
exactly enough for a page to pass `_is_error_page`'s length check. -/
def padHtml : Str := List.replicate 2000 'x'

/-! ## Concrete pages used as witnesses and counterexamples

Every page's `html` is a short real fragment followed by `padHtml`, so that
it passes `_is_error_page`'s 2000-byte threshold; the abstract fields are
consistent with what BeautifulSoup/`re` would extract from such markup. -/
/-- A Stage-1-passing page with no detector evidence at all. -/
def blankPage : Page :=
  { html := str "<html><body>" ++ padHtml
    title := none
    htmlLang := str "en"
    addressMatches := []
    latMatches := []
    latlngMatches := []
    anchors := []
    iframes := []
    forms := []
    jsonLdTexts := [] }

/-- A page whose HTML is under the 2000-byte error threshold. -/
def shortPage : Page := { blankPage with html := str "<html></html>" }

/-- A page whose main content yields exactly two distinct regex address
matches (an individual location page with a pair of addresses). -/
def page9 : Page :=
  { blankPage with addressMatches :=
      [str "100 Main St, Springfield, IL 62701",
       str "200 Oak Ave, Portland, OR 97201"] }

/-- A Stage-1-passing page whose main content yields five distinct regex
address matches. -/
def page3a : Page :=
  { blankPage with addressMatches :=
      [str "100 Main St, Springfield, IL 62701",
       str "200 Oak Ave, Portland, OR 97201",
       str "300 Pine Rd, Austin, TX 78701",
       str "400 Elm Dr, Denver, CO 80201",
       str "500 Cedar Ln, Boise, ID 83701"] }

/-- A Stage-1-passing page with exactly one address match and nothing
else. -/
def page3b : Page :=
  { blankPage with addressMatches := [str "100 Main St, Springfield, IL 62701"] }

/-- A location-finder form carrying finder vocabulary but no radius or
distance field (models
`<form action="/terminal-search"><label>Find Terminal</label>
<input name="zip"><button>Go</button></form>`). -/
def finderForm : FormData :=
  { form_html := str "<form action=\"/terminal-search\"><label>Find Terminal</label><input name=\"zip\"><button>Go</button></form>"
    form_action := str "/terminal-search"
    form_text := str "Find Terminal Go" }

/-- A search form carrying a radius field but no finder vocabulary. -/
def radiusForm : FormData :=
  { form_html := str "<form action=\"/center-search\"><input name=\"zip\"><select name=\"radius\"><option>25 miles</option></select></form>"
    form_action := str "/center-search"
    form_text := str "25 miles" }

/-- A Stage-1-passing page whose only feature is `finderForm`. -/
def page2a : Page := { blankPage with forms := [finderForm] }

/-- A Stage-1-passing page whose only feature is `radiusForm`. -/
def page2b : Page := { blankPage with forms := [radiusForm] }

/-- The real prefix of the single-Maps-link page: one anchor to a Google
Maps query. -/
def mapsPre : Str :=
  str "<html><body><a href=\"https://maps.google.com/maps?q=hq\">Map</a>"

/-- A Stage-1-passing page whose only evidence is a single Google Maps
link. -/
def page4 : Page :=
  { blankPage with
      html := mapsPre ++ padHtml
      anchors := [⟨str "https://maps.google.com/maps?q=hq", str "Map"⟩] }

/-- An accepted index-page classification used in report round-trip
checks. -/
def pc1 : PageClassification :=
  { url := str "https://ex.com/locations"
    title := str "Locations"
    signals := [⟨str "INDEX_PAGE", str "high", 15⟩]
    total_score := 15
    is_location_page := true }

/-- Eleven distinct accepted classifications: enough for the report's
`top_pages` (truncated at 20) to exceed the 10 pages the JSON stores. -/
def elevenPages : List PageClassification :=
  (str "abcdefghijk").map (fun c =>
    { url := [c]
      title := []
      signals := [⟨str "INDEX_PAGE", str "high", 15⟩]
      total_score := 15
      is_location_page := true })

/-- The invariant of one site crawl: both ghost logs are duplicate-free,
every fetched URL is in `visited`, every failed URL is in `visited`, and
every URL ever enqueued is still on the frontier or already terminal. -/
def CrawlInv (s : CrawlState) : Prop :=
  s.enqLog.Nodup ∧ s.fetchLog.Nodup ∧
  (∀ u ∈ s.fetchLog, u ∈ s.visited) ∧
  (∀ u ∈ s.failed, u ∈ s.visited) ∧
  (∀ u ∈ s.enqLog, u ∈ s.urls_to_visit ∨ u ∈ s.visited ∨ u ∈ s.failed)

/-- Number of links carried by one fetch outcome. -/
def outcomeLinks : FetchOutcome → Nat
  | .failure => 0
  | .success ls => ls.length

/-- Loop-iteration budget implied by a script of fetch outcomes. -/
def outsWeight (outs : List FetchOutcome) : Nat :=
  (outs.map (fun o => 1 + outcomeLinks o)).sum

/-- The path/query/fragment split that `pyUrlsplit` performs on the text
that follows the netloc. -/
def splitTail (t : Str) : Str × Str × Str :=
  let p3 : Str × Str :=
    match splitAtFirst '#' t with
    | some (a, b) => (a, b)
    | none => (t, [])
  let p4 : Str × Str :=
    match splitAtFirst '?' p3.1 with
    | some (a, b) => (a, b)
    | none => (p3.1, [])
  (p4.1, p4.2, p3.2)

/-- The string `normalize_url` rebuilds from the parsed components (scheme,
netloc, path, query — the fragment is dropped). -/
def mkNormalized (sch netloc path query : Str) : Str :=
  let normalized := sch ++ str "://" ++ lowerStr netloc ++ path
  let normalized := if query ≠ [] then normalized ++ '?' :: query else normalized
  if normalized.getLast? = some '/' ∧ path ≠ str "/" then normalized.dropLast else normalized

/-! ## Theorems -/

theorem containsSubGo_iff (pat s : Str) : containsSubGo pat s = true ↔ pat <:+: s := by
  induction s with
  | nil =>
    simp [containsSubGo]
  | cons c rest ih =>
    simp [containsSubGo, ih, List.infix_cons_iff]

theorem containsSub_iff (hay pat : Str) : containsSub hay pat = true ↔ pat <:+: hay :=
  containsSubGo_iff pat hay

theorem strLenGo_eq (n : Nat) (s : Str) : strLenGo n s = n + s.length := by
  induction s generalizing n with
  | nil => simp [strLenGo]
  | cons c rest ih => simp [strLenGo, ih]; omega

theorem strLen_eq (s : Str) : strLen s = s.length := by
  simp [strLen, strLenGo_eq]

/-! ## Infrastructure: occurrences in appended and replicated strings

These lemmas let concrete multi-kilobyte pages (a short meaningful prefix
followed by inert `'x'` filler) be evaluated analytically: a pattern occurs
in `a ++ replicate n c` iff it occurs in `a` padded with just enough filler
to cover boundary-spanning occurrences. -/
theorem prefix_append_cases {p x y : Str} (h : p <+: x ++ y) :
    p <+: x ∨ ∃ p2, p = x ++ p2 ∧ p2 <+: y := by
  rcases h with ⟨t, ht⟩
  rcases le_or_lt p.length x.length with hle | hlt
  · left
    have : p = (x ++ y).take p.length := by
      rw [← ht, List.take_left']
      rfl
    rw [List.take_append_of_le_length hle] at this
    exact this ▸ List.take_prefix _ _
  · right
    refine ⟨p.drop x.length, ?_, ?_⟩
    · have hx : x = p.take x.length := by
        have : p.take x.length = (x ++ y).take x.length := by
          rw [← ht, List.take_append_eq_append_take]
          have : x.length - p.length = 0 := by omega
          simp [this, List.take_of_length_le (Nat.le_of_lt hlt)]
        rw [this, List.take_left]
      conv_lhs => rw [← List.take_append_drop x.length p]
      rw [← hx]
    · refine ⟨t, ?_⟩
      have := ht
      rw [← List.take_append_drop x.length p, List.append_assoc] at this
      have hx : p.take x.length = x := by
        have h2 : p.take x.length = (x ++ y).take x.length := by
          rw [← ht, List.take_append_eq_append_take]
          have : x.length - p.length = 0 := by omega
          simp [this, List.take_of_length_le (Nat.le_of_lt hlt)]
        rw [h2, List.take_left]
      rw [hx] at this
      exact List.append_cancel_left this

theorem infix_append_cases {p x y : Str} (h : p <:+: x ++ y) :
    p <:+: x ∨ p <:+: y ∨
      ∃ p1 p2, p = p1 ++ p2 ∧ p1 ≠ [] ∧ p2 ≠ [] ∧ p1 <:+ x ∧ p2 <+: y := by
  induction x with
  | nil =>
    right; left
    simpa using h
  | cons a x' ih =>
    rw [List.cons_append, List.infix_cons_iff] at h
    rcases h with hpre | hinf
    · rcases prefix_append_cases (x := a :: x') hpre with hpx | ⟨p2, hp, hp2⟩
      · exact Or.inl hpx.isInfix
      · by_cases hp2nil : p2 = []
        · subst hp2nil
          simp only [List.append_nil] at hp
          exact Or.inl (hp ▸ List.infix_rfl)
        · exact Or.inr (Or.inr ⟨a :: x', p2, hp, by simp, hp2nil, List.suffix_rfl, hp2⟩)
    · rcases ih hinf with hx | hy | ⟨p1, p2, hp, h1, h2, hsuf, hpre2⟩
      · exact Or.inl (hx.trans (List.infix_cons_iff.mpr (Or.inr List.infix_rfl)))
      · exact Or.inr (Or.inl hy)
      · exact Or.inr (Or.inr ⟨p1, p2, hp, h1, h2, hsuf.trans (List.suffix_cons a x'), hpre2⟩)

theorem infix_replicate_all_eq {p : Str} {n : Nat} {c : Char} (h : p <:+: List.replicate n c) :
    ∀ x ∈ p, x = c := fun _ hx =>
  List.eq_of_mem_replicate (h.sublist.subset hx)

theorem infix_append_replicate_iff (a p : Str) (c : Char) {n m : Nat}
    (hn : p.length ≤ n) (hm : p.length ≤ m) :
    p <:+: a ++ List.replicate n c ↔ p <:+: a ++ List.replicate m c := by
  have key : ∀ {n m : Nat}, p.length ≤ n → p.length ≤ m →
      p <:+: a ++ List.replicate n c → p <:+: a ++ List.replicate m c := by
    intro n m hn hm h
    rcases infix_append_cases h with hx | hy | ⟨p1, p2, hp, h1, h2, hsuf, hpre⟩
    · exact hx.trans ⟨[], List.replicate m c, by simp⟩
    · have hall : ∀ x ∈ p, x = c := infix_replicate_all_eq hy
      have hrep : p = List.replicate p.length c := List.eq_replicate_length.mpr hall
      have hpm : p <+: List.replicate m c := by
        rw [hrep, show m = p.length + (m - p.length) by omega, List.replicate_add]
        exact ⟨List.replicate (m - p.length) c, rfl⟩
      rcases hpm with ⟨t, ht⟩
      exact ⟨a, t, by rw [← ht, List.append_assoc]⟩
    · have hall : ∀ x ∈ p2, x = c := fun x hx =>
        List.eq_of_mem_replicate (hpre.sublist.subset hx)
      have hp2rep : p2 = List.replicate p2.length c := List.eq_replicate_length.mpr hall
      have hp2len : p2.length ≤ m := by
        have : p2.length ≤ p.length := by
          rw [hp]; simp
        omega
      rcases hsuf with ⟨a0, ha0⟩
      refine ⟨a0, List.replicate (m - p2.length) c, ?_⟩
      rw [hp, ← ha0]
      rw [show List.replicate m c = List.replicate p2.length c ++ List.replicate (m - p2.length) c by
        rw [← List.replicate_add]; congr 1; omega]
      rw [← hp2rep]
      simp [List.append_assoc]
  exact ⟨key hn hm, key hm hn⟩

theorem containsSub_append_replicate (a p : Str) (c : Char) {n m : Nat}
    (hn : p.length ≤ n) (hm : p.length ≤ m) :
    containsSub (a ++ List.replicate n c) p = containsSub (a ++ List.replicate m c) p := by
  by_cases h : p <:+: a ++ List.replicate m c
  · have h' := (infix_append_replicate_iff a p c hn hm).mpr h
    rw [(containsSub_iff _ _).mpr h, (containsSub_iff _ _).mpr h']
  · have h' : ¬ p <:+: a ++ List.replicate n c := fun hc =>
      h ((infix_append_replicate_iff a p c hn hm).mp hc)
    rw [Bool.eq_iff_iff.mpr ⟨fun hc => absurd ((containsSub_iff _ _).mp hc) h',
      fun hc => absurd ((containsSub_iff _ _).mp hc) h⟩]

theorem lowerStr_append (a b : Str) : lowerStr (a ++ b) = lowerStr a ++ lowerStr b :=
  List.map_append Char.toLower a b

theorem lowerStr_replicate_x (n : Nat) :
    lowerStr (List.replicate n 'x') = List.replicate n 'x' := by
  unfold lowerStr
  rw [List.map_replicate]
  congr 1

theorem lowerStr_padHtml : lowerStr padHtml = padHtml := by
  unfold padHtml
  exact lowerStr_replicate_x 2000

/-- Evaluate a substring check on a padded page: occurrences in the real
prefix plus just enough filler to cover the boundary decide the question. -/
theorem containsSub_padded (a p : Str) (m : Nat) (hp : p.length ≤ 2000) (hm : p.length ≤ m) :
    containsSub (a ++ padHtml) p = containsSub (a ++ List.replicate m 'x') p := by
  unfold padHtml
  exact containsSub_append_replicate a p 'x' hp hm

theorem padHtml_length : padHtml.length = 2000 := by
  unfold padHtml
  rw [List.length_replicate]

theorem strLen_padded (a : Str) : strLen (a ++ padHtml) = a.length + 2000 := by
  rw [strLen_eq, List.length_append, padHtml_length]

/-- `_is_error_page` on a padded page reduces to checks on the title and the
short real prefix. -/
theorem is_error_page_padded_false (a title : Str)
    (h : (error_titles.any (fun err => containsSub (lowerStr title) err) ||
          containsSub (lowerStr a ++ List.replicate 7 'x') (str "<h1>404") ||
          containsSub (lowerStr a ++ List.replicate 18 'x') (str "<h1>page not found")) = false) :
    is_error_page (a ++ padHtml) title = false := by
  unfold is_error_page
  rw [lowerStr_append, lowerStr_padHtml]
  rw [containsSub_padded (lowerStr a) (str "<h1>404") 7 (by decide) (by decide),
    containsSub_padded (lowerStr a) (str "<h1>page not found") 18 (by decide) (by decide)]
  rw [strLen_padded]
  simp only [Bool.or_eq_false_iff] at h ⊢
  refine ⟨⟨⟨h.1.1, h.1.2⟩, h.2⟩, ?_⟩
  simp

/-- `_detect_google_maps_strict` on a padded page whose real prefix does not
carry the Maps JavaScript API marker reduces to the detector on the short
form (every pattern it consults is at most 31 characters long). -/
theorem detect_gmaps_padded_noapi (a : Str) (anchors : List Anchor) (iframes : List IFrameData)
    (hapi : containsSub (lowerStr a ++ List.replicate 31 'x')
      (str "maps.googleapis.com/maps/api/js") = false) :
    detect_google_maps_strict (a ++ padHtml) anchors iframes
      = detect_google_maps_strict (a ++ List.replicate 31 'x') anchors iframes := by
  unfold detect_google_maps_strict
  rw [lowerStr_append, lowerStr_padHtml, lowerStr_append, lowerStr_replicate_x]
  simp only [real_map_patterns, List.any_cons, List.any_nil]
  rw [containsSub_padded (lowerStr a) (str "google.com/maps/embed") 31 (by decide) (by decide),
    containsSub_padded (lowerStr a) (str "/maps/d/embed") 31 (by decide) (by decide),
    containsSub_padded (lowerStr a) (str "maps.google.com/maps?") 31 (by decide) (by decide),
    containsSub_padded (lowerStr a) (str "google.com/maps?q=") 31 (by decide) (by decide),
    containsSub_padded (lowerStr a) (str "google.com/maps/place") 31 (by decide) (by decide),
    containsSub_padded (lowerStr a) (str "maps.googleapis.com/maps/api/js") 31 (by decide) (by decide)]
  rw [hapi]
  simp only [Bool.false_eq_true, if_false]

/-- `_detect_interactive_maps` on a padded page reduces to the short form
(every library signature is at most 13 characters long). -/
theorem detect_interactive_maps_padded (a : Str) :
    detect_interactive_maps (a ++ padHtml)
      = detect_interactive_maps (a ++ List.replicate 13 'x') := by
  unfold detect_interactive_maps
  rw [lowerStr_append, lowerStr_padHtml, lowerStr_append, lowerStr_replicate_x]
  simp only [map_libraries_rest, List.filterMap_cons, List.filterMap_nil,
    List.any_cons, List.any_nil]
  rw [containsSub_padded (lowerStr a) (str "mapbox.com") 13 (by decide) (by decide),
    containsSub_padded (lowerStr a) (str "mapboxgl") 13 (by decide) (by decide),
    containsSub_padded (lowerStr a) (str "mapbox-gl") 13 (by decide) (by decide),
    containsSub_padded (lowerStr a) (str "leafletjs.com") 13 (by decide) (by decide),
    containsSub_padded (lowerStr a) (str "l.map") 13 (by decide) (by decide),
    containsSub_padded (lowerStr a) (str "leaflet.js") 13 (by decide) (by decide),
    containsSub_padded (lowerStr a) (str "arcgis.com") 13 (by decide) (by decide),
    containsSub_padded (lowerStr a) (str "esri.com") 13 (by decide) (by decide),
    containsSub_padded (lowerStr a) (str "featureserver") 13 (by decide) (by decide),
    containsSub_padded (lowerStr a) (str "mapserver") 13 (by decide) (by decide)]

/-! ## Signal nonnegativity

Every detector rule in `classify_html`'s code constructs its signal with a
hard-coded nonnegative point value. -/
theorem count_real_addresses_points {m : List Str} {s : LocationSignal}
    (h : (count_real_addresses m).2 = some s) : 0 ≤ s.points := by
  simp only [count_real_addresses] at h
  split_ifs at h <;> simp_all
  all_goals rw [← h]
  all_goals decide

theorem count_coordinates_points {l1 : List Str} {l2 : List (Str × Str)} {s : LocationSignal}
    (h : (count_coordinates l1 l2).2 = some s) : 0 ≤ s.points := by
  simp only [count_coordinates] at h
  split_ifs at h <;> simp_all
  all_goals rw [← h]
  all_goals decide

theorem detect_google_maps_strict_points {html : Str} {anchors : List Anchor}
    {iframes : List IFrameData} {s : LocationSignal}
    (h : detect_google_maps_strict html anchors iframes = some s) : 0 ≤ s.points := by
  simp only [detect_google_maps_strict] at h
  split_ifs at h <;> simp_all
  all_goals rw [← h]
  all_goals decide

theorem detect_location_finder_form_points {forms : List FormData} {s : LocationSignal}
    (h : detect_location_finder_form forms = some s) : 0 ≤ s.points := by
  induction forms with
  | nil => simp [detect_location_finder_form] at h
  | cons f rest ih =>
    simp only [detect_location_finder_form] at h
    split_ifs at h
    · simp_all
      rw [← h]
      decide
    · simp_all
      rw [← h]
      decide
    · exact ih h

theorem detect_json_ld_strict_points {texts : List Str} {s : LocationSignal}
    (h : detect_json_ld_strict texts = some s) : 0 ≤ s.points := by
  simp only [detect_json_ld_strict] at h
  split_ifs at h
  simp_all
  rw [← h]
  decide

theorem detect_interactive_maps_points {html : Str} {s : LocationSignal}
    (h : s ∈ detect_interactive_maps html) : 0 ≤ s.points := by
  simp only [detect_interactive_maps] at h
  rcases List.mem_filterMap.mp h with ⟨lib, _, hlib⟩
  split_ifs at hlib
  simp_all
  rw [← hlib]
  simp

theorem detect_location_iframes_points {iframes : List IFrameData} {s : LocationSignal}
    (h : s ∈ detect_location_iframes iframes) : 0 ≤ s.points := by
  simp only [detect_location_iframes] at h
  split_ifs at h <;> simp_all

theorem detect_pdf_links_points {anchors : List Anchor} {s : LocationSignal}
    (h : s ∈ detect_pdf_links anchors) : 0 ≤ s.points := by
  simp only [detect_pdf_links] at h
  split_ifs at h <;> simp_all

theorem primary_signals_points {p : Page} {u : Str} {s : LocationSignal}
    (h : s ∈ (primary_signals p u).1) : 0 ≤ s.points := by
  simp only [primary_signals] at h
  split_ifs at h <;>
    simp only [List.mem_append, List.mem_singleton, List.not_mem_nil, List.nil_append,
      Option.mem_toList, Option.mem_def, false_or, or_false] at h <;>
    casesm* _ ∨ _ <;>
    first
      | exact count_real_addresses_points ‹_›
      | exact count_coordinates_points ‹_›
      | exact detect_google_maps_strict_points ‹_›
      | exact detect_location_finder_form_points ‹_›
      | simp_all

theorem secondary_signals_points {p : Page} {s : LocationSignal}
    (h : s ∈ secondary_signals p) : 0 ≤ s.points := by
  simp only [secondary_signals, List.mem_append] at h
  rcases h with ((h | h) | h) | h
  · rw [Option.mem_toList, Option.mem_def] at h
    exact detect_json_ld_strict_points h
  · exact detect_interactive_maps_points h
  · exact detect_location_iframes_points h
  · exact detect_pdf_links_points h

theorem classify_html_signals_nonneg (p : Page) (url : Str) :
    ∀ s ∈ (classify_html p url).signals, 0 ≤ s.points := by
  intro s hs
  simp only [classify_html] at hs
  split_ifs at hs <;> simp_all [disqualifiedSignal]
  · exact primary_signals_points hs
  · rcases hs with hs | hs
    · exact primary_signals_points hs
    · exact secondary_signals_points hs

/-! ## `classify_html` path characterizations -/
/-- On a page that survives Stage 1 but fails the Stage-2 gate,
`classify_html` keeps the collected signals and stores `total_score = 0`
(lines 316–326). -/
theorem classify_html_reject (p : Page) (url : Str)
    (h1 : is_error_page p.html ((p.title.map trimStr).getD []) = false)
    (h2 : (is_non_english p.htmlLang && !has_location_url (lowerStr url)) = false)
    (h3 : is_excluded_page_type (lowerStr url) ((p.title.map trimStr).getD []) = false)
    (h4 : (primary_signals p (lowerStr url)).2 = false) :
    classify_html p url =
      ⟨url, (p.title.map trimStr).getD [],
        (if (primary_signals p (lowerStr url)).1 = []
          then [⟨str "NO_LOCATION_CONTENT", str "high", 0⟩]
          else (primary_signals p (lowerStr url)).1),
        0, false⟩ := by
  simp only [classify_html, h1, h2, h3, h4]
  simp

/-- On a page that survives Stage 1 and passes the Stage-2 gate,
`classify_html` appends the secondary signals, clamps the total at zero and
accepts iff the unclamped total reaches the threshold (lines 329–357). -/
theorem classify_html_accept (p : Page) (url : Str)
    (h1 : is_error_page p.html ((p.title.map trimStr).getD []) = false)
    (h2 : (is_non_english p.htmlLang && !has_location_url (lowerStr url)) = false)
    (h3 : is_excluded_page_type (lowerStr url) ((p.title.map trimStr).getD []) = false)
    (h4 : (primary_signals p (lowerStr url)).2 = true) :
    classify_html p url =
      ⟨url, (p.title.map trimStr).getD [],
        (primary_signals p (lowerStr url)).1 ++ secondary_signals p,
        max 0 ((((primary_signals p (lowerStr url)).1 ++ secondary_signals p).map
          (fun s => s.points)).sum),
        decide (LOCATION_PAGE_THRESHOLD ≤
          ((((primary_signals p (lowerStr url)).1 ++ secondary_signals p).map
            (fun s => s.points)).sum))⟩ := by
  simp only [classify_html, h1, h2, h3, h4]
  simp

theorem classify_html_sum_nonneg (p : Page) (url : Str) :
    0 ≤ (((classify_html p url).signals).map (fun s => s.points)).sum := by
  refine List.sum_nonneg ?_
  intro x hx
  rcases List.mem_map.mp hx with ⟨s, hs, rfl⟩
  exact classify_html_signals_nonneg p url s hs

theorem classify_html_total_nonneg (p : Page) (url : Str) :
    0 ≤ (classify_html p url).total_score := by
  simp only [classify_html]
  split_ifs <;> simp [le_max_left]

theorem classify_html_total_score_cases (p : Page) (url : Str) :
    (classify_html p url).total_score
        = (((classify_html p url).signals).map (fun s => s.points)).sum
      ∨ ((classify_html p url).total_score = 0 ∧ (classify_html p url).is_location_page = false) := by
  simp only [classify_html]
  split_ifs
  · right; simp
  · right; simp
  · right; simp
  · right; simp
  · right; simp
  · left
    have hn : 0 ≤ (((primary_signals p (lowerStr url)).1 ++ secondary_signals p).map
        (fun s => s.points)).sum := by
      refine List.sum_nonneg ?_
      intro x hx
      rcases List.mem_map.mp hx with ⟨s, hs, rfl⟩
      rcases List.mem_append.mp hs with hs | hs
      · exact primary_signals_points hs
      · exact secondary_signals_points hs
    simp only [List.map_append, List.sum_append] at hn
    simp [max_eq_right hn]

theorem blank_gmaps_none :
    detect_google_maps_strict (str "<html><body>" ++ padHtml) ([] : List Anchor)
      ([] : List IFrameData) = none := by
  rw [detect_gmaps_padded_noapi _ _ _ (by decide)]
  decide

theorem blank_error_false :
    is_error_page (str "<html><body>" ++ padHtml) [] = false :=
  is_error_page_padded_false _ _ (by decide)

/-- C9: every signal `classify_html` emits carries nonnegative points, so
the sum of signal points is nonnegative, the stored `total_score` is
nonnegative, and the `max(0, total)` clamp never changes the score that is
actually stored; however the stored `total_score` equals the plain sum of
the emitted signals' points only on pages that pass the Stage-2 gate — on
the gate's reject path the stored score is forced to `0` even though the
retained signals may sum to a positive value. -/
theorem C9_signal_points_nonneg :
    (∀ (p : Page) (url : Str), ∀ s ∈ (classify_html p url).signals, 0 ≤ s.points) ∧
    (∀ (p : Page) (url : Str),
      0 ≤ (((classify_html p url).signals).map (fun s => s.points)).sum) ∧
    (∀ (p : Page) (url : Str), 0 ≤ (classify_html p url).total_score) ∧
    (∀ (p : Page) (url : Str),
      (classify_html p url).total_score
          = (((classify_html p url).signals).map (fun s => s.points)).sum
        ∨ ((classify_html p url).total_score = 0 ∧
            (classify_html p url).is_location_page = false)) :=
  ⟨classify_html_signals_nonneg, classify_html_sum_nonneg, classify_html_total_nonneg,
    classify_html_total_score_cases⟩

/-- Witness for C9 at concrete pages. -/
theorem C9_signal_points_nonneg_witness :
    0 ≤ disqualifiedSignal.points ∧
    0 ≤ (classify_html shortPage (str "https://ex.com/a")).total_score :=
  ⟨C9_signal_points_nonneg.1 shortPage (str "https://ex.com/a") disqualifiedSignal (by decide),
   C9_signal_points_nonneg.2.2.1 shortPage (str "https://ex.com/a")⟩

/-- C9 counterexample: a Stage-1-passing page with exactly two address
matches and no other evidence keeps its 3-point `ADDRESS_PAIR` signal, yet
the stored `total_score` is `0`, not the plain sum `3` of the emitted
signals' points. -/
theorem C9_counterexample :
    (classify_html page9 (str "https://ex.com/a")).signals
        = [⟨str "ADDRESS_PAIR", str "medium", 3⟩] ∧
    (classify_html page9 (str "https://ex.com/a")).total_score = 0 ∧
    (((classify_html page9 (str "https://ex.com/a")).signals).map
        (fun s => s.points)).sum = 3 := by
  have hg : detect_google_maps_strict page9.html page9.anchors page9.iframes = none :=
    blank_gmaps_none
  have hp : primary_signals page9 (lowerStr (str "https://ex.com/a"))
      = ([⟨str "ADDRESS_PAIR", str "medium", 3⟩], false) := by
    unfold primary_signals
    rw [hg]
    decide
  have hrej := classify_html_reject page9 (str "https://ex.com/a")
    blank_error_false (by decide) (by decide) (by rw [hp])
  rw [hrej, hp]
  decide

/-- The sum of the accepted-path signal points dominates any single
emitted signal's points. -/
theorem classify_sum_ge_of_mem {p : Page} {u : Str} {s : LocationSignal}
    (hmem : s ∈ (primary_signals p u).1 ++ secondary_signals p) :
    s.points ≤ (((primary_signals p u).1 ++ secondary_signals p).map
      (fun t => t.points)).sum := by
  refine List.single_le_sum ?_ s.points (List.mem_map_of_mem _ hmem)
  intro x hx
  rcases List.mem_map.mp hx with ⟨t, ht, rfl⟩
  rcases List.mem_append.mp ht with ht | ht
  · exact primary_signals_points ht
  · exact secondary_signals_points ht

/-- C3: on a Stage-1-passing page whose main content yields exactly 5
distinct postal-address matches, `classify_html` accepts the page and emits
the high-confidence `ADDRESS_LIST` signal; on a page with exactly 1 address
match and no other signal (and no location keyword or index pattern in the
URL), it rejects with `total_score = 0`. -/
theorem C3_address_list_classification :
    (∀ (p : Page) (url : Str),
      is_error_page p.html ((p.title.map trimStr).getD []) = false →
      (is_non_english p.htmlLang && !has_location_url (lowerStr url)) = false →
      is_excluded_page_type (lowerStr url) ((p.title.map trimStr).getD []) = false →
      ((p.addressMatches.map trimStr).filter (fun c => 15 < c.length)).dedup.length = 5 →
      (⟨str "ADDRESS_LIST", str "high", 10⟩ : LocationSignal) ∈ (classify_html p url).signals ∧
        (classify_html p url).is_location_page = true) ∧
    (∀ (p : Page) (url : Str),
      is_error_page p.html ((p.title.map trimStr).getD []) = false →
      (is_non_english p.htmlLang && !has_location_url (lowerStr url)) = false →
      is_excluded_page_type (lowerStr url) ((p.title.map trimStr).getD []) = false →
      ((p.addressMatches.map trimStr).filter (fun c => 15 < c.length)).dedup.length = 1 →
      matchesIndexPattern (lowerStr url) = false →
      p.latMatches = [] → p.latlngMatches = [] →
      detect_google_maps_strict p.html p.anchors p.iframes = none →
      detect_location_finder_form p.forms = none →
      has_location_url (lowerStr url) = false →
      (classify_html p url).total_score = 0 ∧
        (classify_html p url).is_location_page = false) := by
  constructor
  · intro p url h1 h2 h3 hcount
    have hca : count_real_addresses p.addressMatches
        = (5, some ⟨str "ADDRESS_LIST", str "high", 10⟩) := by
      simp only [count_real_addresses]
      rw [hcount]
      simp
    have hsp2 : (primary_signals p (lowerStr url)).2 = true := by
      unfold primary_signals
      rw [hca]
      simp
    have hmem : (⟨str "ADDRESS_LIST", str "high", 10⟩ : LocationSignal)
        ∈ (primary_signals p (lowerStr url)).1 := by
      unfold primary_signals
      rw [hca]
      simp
    have hacc := classify_html_accept p url h1 h2 h3 hsp2
    constructor
    · rw [hacc]
      exact List.mem_append_left _ hmem
    · rw [hacc]
      have h10 := classify_sum_ge_of_mem (List.mem_append_left (secondary_signals p) hmem)
      simp only at h10
      simp only [LOCATION_PAGE_THRESHOLD, decide_eq_true_eq]
      omega
  · intro p url h1 h2 h3 hcount hidx hlat hlatlng hg hf hloc
    have hca : count_real_addresses p.addressMatches = (1, none) := by
      simp only [count_real_addresses]
      rw [hcount]
      simp
    have hsp : primary_signals p (lowerStr url) = ([], false) := by
      unfold primary_signals
      rw [hca, hidx, hlat, hlatlng, hg, hf, hloc]
      decide
    have hrej := classify_html_reject p url h1 h2 h3 (by rw [hsp])
    rw [hrej]
    exact ⟨rfl, rfl⟩

/-- Witness for C3 at concrete pages. -/
theorem C3_address_list_classification_witness :
    ((⟨str "ADDRESS_LIST", str "high", 10⟩ : LocationSignal)
        ∈ (classify_html page3a (str "https://ex.com/a")).signals ∧
      (classify_html page3a (str "https://ex.com/a")).is_location_page = true) ∧
    ((classify_html page3b (str "https://ex.com/b")).total_score = 0 ∧
      (classify_html page3b (str "https://ex.com/b")).is_location_page = false) :=
  ⟨C3_address_list_classification.1 page3a (str "https://ex.com/a")
      blank_error_false (by decide) (by decide) (by decide),
   C3_address_list_classification.2 page3b (str "https://ex.com/b")
      blank_error_false (by decide) (by decide) (by decide) (by decide) rfl rfl
      blank_gmaps_none rfl (by decide)⟩

/-- C2 (amended): a form with finder vocabulary and no quote vocabulary
yields the 8-point `LOCATION_FINDER` primary signal even with no
radius/distance field at all, and a non-quote form with a radius/distance
term but no finder vocabulary yields the 4-point `LOCATION_SEARCH` signal,
which also passes the Stage-2 gate. -/
theorem C2_location_finder_form :
    (∀ (p : Page) (url : Str) (f : FormData), p.forms = [f] →
      is_error_page p.html ((p.title.map trimStr).getD []) = false →
      (is_non_english p.htmlLang && !has_location_url (lowerStr url)) = false →
      is_excluded_page_type (lowerStr url) ((p.title.map trimStr).getD []) = false →
      finder_keywords.any (fun kw => containsSub (lowerStr f.form_html) kw
        || containsSub (lowerStr f.form_text) kw) = true →
      quote_terms.any (fun q => containsSub (lowerStr f.form_html) q
        || containsSub (lowerStr f.form_action) q) = false →
      radius_terms.any (fun r => containsSub (lowerStr f.form_html) r) = false →
      (⟨str "LOCATION_FINDER", str "high", 8⟩ : LocationSignal)
          ∈ (classify_html p url).signals ∧
        (classify_html p url).is_location_page = true) ∧
    (∀ (p : Page) (url : Str) (f : FormData), p.forms = [f] →
      is_error_page p.html ((p.title.map trimStr).getD []) = false →
      (is_non_english p.htmlLang && !has_location_url (lowerStr url)) = false →
      is_excluded_page_type (lowerStr url) ((p.title.map trimStr).getD []) = false →
      finder_keywords.any (fun kw => containsSub (lowerStr f.form_html) kw
        || containsSub (lowerStr f.form_text) kw) = false →
      quote_terms.any (fun q => containsSub (lowerStr f.form_html) q
        || containsSub (lowerStr f.form_action) q) = false →
      radius_terms.any (fun r => containsSub (lowerStr f.form_html) r) = true →
      (⟨str "LOCATION_SEARCH", str "medium", 4⟩ : LocationSignal)
          ∈ (classify_html p url).signals ∧
        (classify_html p url).is_location_page = true) := by
  constructor
  · intro p url f hforms h1 h2 h3 hfinder hquote _hradius
    have hdet : detect_location_finder_form p.forms
        = some ⟨str "LOCATION_FINDER", str "high", 8⟩ := by
      rw [hforms]
      simp only [detect_location_finder_form]
      rw [hfinder, hquote]
      simp
    have hsp2 : (primary_signals p (lowerStr url)).2 = true := by
      unfold primary_signals
      rw [hdet]
      simp
    have hmem : (⟨str "LOCATION_FINDER", str "high", 8⟩ : LocationSignal)
        ∈ (primary_signals p (lowerStr url)).1 := by
      unfold primary_signals
      rw [hdet]
      simp
    have hacc := classify_html_accept p url h1 h2 h3 hsp2
    refine ⟨by rw [hacc]; exact List.mem_append_left _ hmem, ?_⟩
    rw [hacc]
    have h8 := classify_sum_ge_of_mem (List.mem_append_left (secondary_signals p) hmem)
    simp only at h8
    simp only [LOCATION_PAGE_THRESHOLD, decide_eq_true_eq]
    omega
  · intro p url f hforms h1 h2 h3 hfinder hquote hradius
    have hdet : detect_location_finder_form p.forms
        = some ⟨str "LOCATION_SEARCH", str "medium", 4⟩ := by
      rw [hforms]
      simp only [detect_location_finder_form]
      rw [hfinder, hquote, hradius]
      simp
    have hsp2 : (primary_signals p (lowerStr url)).2 = true := by
      unfold primary_signals
      rw [hdet]
      simp
    have hmem : (⟨str "LOCATION_SEARCH", str "medium", 4⟩ : LocationSignal)
        ∈ (primary_signals p (lowerStr url)).1 := by
      unfold primary_signals
      rw [hdet]
      simp
    have hacc := classify_html_accept p url h1 h2 h3 hsp2
    refine ⟨by rw [hacc]; exact List.mem_append_left _ hmem, ?_⟩
    rw [hacc]
    have h4 := classify_sum_ge_of_mem (List.mem_append_left (secondary_signals p) hmem)
    simp only at h4
    simp only [LOCATION_PAGE_THRESHOLD, decide_eq_true_eq]
    omega

theorem blank_interactive_none :
    detect_interactive_maps (str "<html><body>" ++ padHtml) = [] := by
  rw [detect_interactive_maps_padded]
  decide

/-- On a blank-skeleton page with no JSON-LD, iframes or anchors, all
secondary detectors are silent. -/
theorem blank_secondary_none (p : Page) (hhtml : p.html = str "<html><body>" ++ padHtml)
    (hj : p.jsonLdTexts = []) (hi : p.iframes = []) (ha : p.anchors = []) :
    secondary_signals p = [] := by
  unfold secondary_signals
  rw [hhtml, hj, hi, ha, blank_interactive_none]
  decide

/-- Witness for C2 at concrete pages. -/
theorem C2_location_finder_form_witness :
    ((⟨str "LOCATION_FINDER", str "high", 8⟩ : LocationSignal)
        ∈ (classify_html page2a (str "https://ex.com/x")).signals ∧
      (classify_html page2a (str "https://ex.com/x")).is_location_page = true) ∧
    ((⟨str "LOCATION_SEARCH", str "medium", 4⟩ : LocationSignal)
        ∈ (classify_html page2b (str "https://ex.com/x")).signals ∧
      (classify_html page2b (str "https://ex.com/x")).is_location_page = true) :=
  ⟨C2_location_finder_form.1 page2a (str "https://ex.com/x") finderForm rfl
      blank_error_false (by decide) (by decide) (by decide) (by decide) (by decide),
   C2_location_finder_form.2 page2b (str "https://ex.com/x") radiusForm rfl
      blank_error_false (by decide) (by decide) (by decide) (by decide) (by decide)⟩

/-- C2 counterexample: `classify_html` emits the `LOCATION_FINDER` primary
signal — and accepts the page — for a form with finder vocabulary but no
radius/distance field whatsoever, contradicting the claim that the signal
requires finder vocabulary and a radius field to co-occur. -/
theorem C2_counterexample :
    radius_terms.any (fun r => containsSub (lowerStr finderForm.form_html) r) = false ∧
    (⟨str "LOCATION_FINDER", str "high", 8⟩ : LocationSignal)
        ∈ (classify_html page2a (str "https://ex.com/x")).signals ∧
    (classify_html page2a (str "https://ex.com/x")).is_location_page = true := by
  have hdet : detect_location_finder_form page2a.forms
      = some ⟨str "LOCATION_FINDER", str "high", 8⟩ := by decide
  have hg : detect_google_maps_strict page2a.html page2a.anchors page2a.iframes = none :=
    blank_gmaps_none
  have hsp : primary_signals page2a (lowerStr (str "https://ex.com/x"))
      = ([⟨str "LOCATION_FINDER", str "high", 8⟩], true) := by
    unfold primary_signals
    rw [hg, hdet]
    decide
  have hacc := classify_html_accept page2a (str "https://ex.com/x")
    blank_error_false (by decide) (by decide) (by rw [hsp])
  have hsec := blank_secondary_none page2a rfl rfl rfl rfl
  refine ⟨by decide, ?_, ?_⟩
  · rw [hacc, hsp, hsec]
    decide
  · rw [hacc, hsp, hsec]
    decide

/-- C4 (amended): a page whose only evidence is the single-Google-Maps-link
signal is rejected at the Stage-2 gate with stored `total_score = 0` (the
1-point signal is recorded but the stored score is zeroed, not `1`); when
the URL additionally carries a location keyword, the 3-point URL-context
signal combines with the 1-point link signal to a total of 4 ≥ 3 and the
page is accepted. -/
theorem C4_single_maps_link :
    (∀ (p : Page) (url : Str),
      is_error_page p.html ((p.title.map trimStr).getD []) = false →
      (is_non_english p.htmlLang && !has_location_url (lowerStr url)) = false →
      is_excluded_page_type (lowerStr url) ((p.title.map trimStr).getD []) = false →
      detect_google_maps_strict p.html p.anchors p.iframes
        = some ⟨str "GOOGLE_MAPS_LINK", str "low", 1⟩ →
      matchesIndexPattern (lowerStr url) = false →
      p.addressMatches = [] → p.latMatches = [] → p.latlngMatches = [] →
      detect_location_finder_form p.forms = none →
      has_location_url (lowerStr url) = false →
      (classify_html p url).signals = [⟨str "GOOGLE_MAPS_LINK", str "low", 1⟩] ∧
        (classify_html p url).total_score = 0 ∧
        (classify_html p url).is_location_page = false) ∧
    (∀ (p : Page) (url : Str),
      is_error_page p.html ((p.title.map trimStr).getD []) = false →
      (is_non_english p.htmlLang && !has_location_url (lowerStr url)) = false →
      is_excluded_page_type (lowerStr url) ((p.title.map trimStr).getD []) = false →
      detect_google_maps_strict p.html p.anchors p.iframes
        = some ⟨str "GOOGLE_MAPS_LINK", str "low", 1⟩ →
      matchesIndexPattern (lowerStr url) = false →
      p.addressMatches = [] → p.latMatches = [] → p.latlngMatches = [] →
      detect_location_finder_form p.forms = none →
      has_location_url (lowerStr url) = true →
      secondary_signals p = [] →
      (classify_html p url).signals
          = [⟨str "GOOGLE_MAPS_LINK", str "low", 1⟩, ⟨str "URL_CONTEXT", str "medium", 3⟩] ∧
        (classify_html p url).total_score = 4 ∧
        (classify_html p url).is_location_page = true) := by
  constructor
  · intro p url h1 h2 h3 hg hidx haddr hlat hll hf hloc
    have hsp : primary_signals p (lowerStr url)
        = ([⟨str "GOOGLE_MAPS_LINK", str "low", 1⟩], false) := by
      unfold primary_signals
      rw [haddr, hlat, hll, hg, hf, hidx, hloc]
      decide
    have hrej := classify_html_reject p url h1 h2 h3 (by rw [hsp])
    rw [hrej, hsp]
    refine ⟨by simp, rfl, rfl⟩
  · intro p url h1 h2 h3 hg hidx haddr hlat hll hf hloc hsec
    have hsp : primary_signals p (lowerStr url)
        = ([⟨str "GOOGLE_MAPS_LINK", str "low", 1⟩, ⟨str "URL_CONTEXT", str "medium", 3⟩],
            true) := by
      unfold primary_signals
      rw [haddr, hlat, hll, hg, hf, hidx, hloc]
      decide
    have hacc := classify_html_accept p url h1 h2 h3 (by rw [hsp])
    rw [hacc, hsp, hsec]
    refine ⟨by simp, by simp, by simp [LOCATION_PAGE_THRESHOLD]⟩

theorem page4_gmaps :
    detect_google_maps_strict page4.html page4.anchors page4.iframes
      = some ⟨str "GOOGLE_MAPS_LINK", str "low", 1⟩ := by
  show detect_google_maps_strict (mapsPre ++ padHtml) _ _ = _
  rw [detect_gmaps_padded_noapi mapsPre _ _ (by decide)]
  decide

theorem page4_secondary : secondary_signals page4 = [] := by
  unfold secondary_signals
  show (detect_json_ld_strict []).toList ++ detect_interactive_maps (mapsPre ++ padHtml)
      ++ detect_location_iframes [] ++ detect_pdf_links page4.anchors = []
  rw [detect_interactive_maps_padded]
  decide

/-- Witness for C4 at the concrete single-Maps-link page (for both the
rejected bare page and the accepted location-keyword-URL variant). -/
theorem C4_single_maps_link_witness :
    ((classify_html page4 (str "https://ex.com/contactinfo")).signals
        = [⟨str "GOOGLE_MAPS_LINK", str "low", 1⟩] ∧
      (classify_html page4 (str "https://ex.com/contactinfo")).total_score = 0 ∧
      (classify_html page4 (str "https://ex.com/contactinfo")).is_location_page = false) ∧
    ((classify_html page4 (str "https://ex.com/fleet-locator-info")).signals
        = [⟨str "GOOGLE_MAPS_LINK", str "low", 1⟩, ⟨str "URL_CONTEXT", str "medium", 3⟩] ∧
      (classify_html page4 (str "https://ex.com/fleet-locator-info")).total_score = 4 ∧
      (classify_html page4 (str "https://ex.com/fleet-locator-info")).is_location_page = true) :=
  ⟨C4_single_maps_link.1 page4 (str "https://ex.com/contactinfo")
      (is_error_page_padded_false mapsPre [] (by decide)) (by decide) (by decide)
      page4_gmaps (by decide) rfl rfl rfl rfl (by decide),
   C4_single_maps_link.2 page4 (str "https://ex.com/fleet-locator-info")
      (is_error_page_padded_false mapsPre [] (by decide)) (by decide) (by decide)
      page4_gmaps (by decide) rfl rfl rfl rfl (by decide) page4_secondary⟩

/-- C4 counterexample: the bare single-Maps-link page stores
`total_score = 0`, not the claimed single-link weight `1`, even though the
1-point `GOOGLE_MAPS_LINK` signal is recorded. -/
theorem C4_counterexample :
    (classify_html page4 (str "https://ex.com/contactinfo")).signals
        = [⟨str "GOOGLE_MAPS_LINK", str "low", 1⟩] ∧
    (classify_html page4 (str "https://ex.com/contactinfo")).total_score = 0 ∧
    ¬ (classify_html page4 (str "https://ex.com/contactinfo")).total_score = 1 ∧
    (classify_html page4 (str "https://ex.com/contactinfo")).is_location_page = false := by
  have hsp : primary_signals page4 (lowerStr (str "https://ex.com/contactinfo"))
      = ([⟨str "GOOGLE_MAPS_LINK", str "low", 1⟩], false) := by
    unfold primary_signals
    rw [page4_gmaps]
    decide
  have hrej := classify_html_reject page4 (str "https://ex.com/contactinfo")
    (is_error_page_padded_false mapsPre [] (by decide)) (by decide) (by decide) (by rw [hsp])
  rw [hrej, hsp]
  refine ⟨by simp, rfl, by simp, rfl⟩

/-- C6: the checkpoint/resume contract holds for a resume after a
non-resumed run — but breaks when the checkpointed run was itself a resumed
run.  This theorem evaluates the model at the failing input: a fresh run
over carrier 0 checkpoints `last_idx = 0` and a first resume correctly
starts at index 1; that resumed run, after completing carrier 1, writes
`last_idx = start_idx + len(previous ++ new) - 1 = 1 + 2 - 1 = 2` even
though the last completed carrier index is 1, so a second resume starts at
index 3 and carrier 2 is silently skipped (the preserved outcome list
itself stays correct). -/
theorem C6_checkpoint_resume_bug :
    (load_checkpoint (some (run_final_checkpoint 0 false none [(10 : Nat)]))).1 = 1 ∧
    (run_final_checkpoint 0 true
        (some (run_final_checkpoint 0 false none [(10 : Nat)])) [20]).results = [10, 20] ∧
    (load_checkpoint (some (run_final_checkpoint 0 true
        (some (run_final_checkpoint 0 false none [(10 : Nat)])) [20]))).1 = 3 ∧
    (3 : Int) ≠ 1 + 1 := by
  refine ⟨rfl, rfl, rfl, by decide⟩

/-! ## C8: report serialization round-trip -/
theorem insertByScore_mem {x y : PageClassification} {l : List PageClassification} :
    y ∈ insertByScore x l ↔ y = x ∨ y ∈ l := by
  induction l with
  | nil => simp [insertByScore]
  | cons z t ih =>
    simp only [insertByScore]
    split_ifs
    · simp [or_comm, or_assoc, or_left_comm]
    · simp [ih]
      tauto

theorem insertByScore_pairwise {x : PageClassification} {l : List PageClassification}
    (h : l.Pairwise (fun a b => b.total_score ≤ a.total_score)) :
    (insertByScore x l).Pairwise (fun a b => b.total_score ≤ a.total_score) := by
  induction l with
  | nil => simp [insertByScore]
  | cons z t ih =>
    rw [List.pairwise_cons] at h
    simp only [insertByScore]
    split_ifs with hlt
    · rw [List.pairwise_cons]
      refine ⟨?_, List.pairwise_cons.mpr h⟩
      intro b hb
      rcases List.mem_cons.mp hb with rfl | hb
      · omega
      · have := h.1 b hb
        omega
    · rw [List.pairwise_cons]
      refine ⟨?_, ih h.2⟩
      intro b hb
      rcases insertByScore_mem.mp hb with rfl | hb
      · omega
      · exact h.1 b hb

theorem sortByScore_pairwise (l : List PageClassification) :
    (sortByScore l).Pairwise (fun a b => b.total_score ≤ a.total_score) := by
  have key : ∀ (acc : List PageClassification),
      acc.Pairwise (fun a b => b.total_score ≤ a.total_score) →
      (l.foldl (fun acc x => insertByScore x acc) acc).Pairwise
        (fun a b => b.total_score ≤ a.total_score) := by
    induction l with
    | nil => intro acc hacc; exact hacc
    | cons z t ih =>
      intro acc hacc
      exact ih _ (insertByScore_pairwise hacc)
  exact key [] List.Pairwise.nil

/-- C8 (amended): serializing a report produced by the carrier-aggregation
loop to the structured (JSON) report preserves `modality_counts` verbatim
and preserves the `top_pages` ordering restricted to the first 10 pages —
which is everything the structured format stores; when the report holds at
most 10 top pages the full ordering (url, title, score, sorted by
`total_score` descending) survives the round trip. -/
theorem C8_report_roundtrip (carrier_name domain : Str)
    (cls : List PageClassification) :
    (toJsonEntry (classify_carrier_aggregate carrier_name domain cls)).modalities_found
        = (classify_carrier_aggregate carrier_name domain cls).modalities_found ∧
    reconstructTopPages (toJsonEntry (classify_carrier_aggregate carrier_name domain cls))
        = (reportTopPages (classify_carrier_aggregate carrier_name domain cls)).take 10 ∧
    ((classify_carrier_aggregate carrier_name domain cls).top_pages.length ≤ 10 →
      reconstructTopPages (toJsonEntry (classify_carrier_aggregate carrier_name domain cls))
        = reportTopPages (classify_carrier_aggregate carrier_name domain cls)) ∧
    ((classify_carrier_aggregate carrier_name domain cls).top_pages).Pairwise
      (fun a b => b.total_score ≤ a.total_score) := by
  refine ⟨rfl, ?_, ?_, ?_⟩
  · simp only [reconstructTopPages, toJsonEntry, reportTopPages, List.map_take, List.map_map]
    congr 1
  · intro hlen
    simp only [reconstructTopPages, toJsonEntry, reportTopPages, List.map_take, List.map_map,
      List.take_of_length_le hlen]
    congr 1
  · simp only [classify_carrier_aggregate]
    exact (sortByScore_pairwise _).sublist (List.take_sublist _ _)

/-- Witness for C8 at a one-page report. -/
theorem C8_report_roundtrip_witness :
    reconstructTopPages (toJsonEntry (classify_carrier_aggregate (str "acme")
        (str "acme_com") [pc1]))
      = reportTopPages (classify_carrier_aggregate (str "acme") (str "acme_com") [pc1]) :=
  (C8_report_roundtrip (str "acme") (str "acme_com") [pc1]).2.2.1 (by decide)

/-- C8 counterexample: a report with 11 accepted pages keeps 11 entries in
`top_pages`, but the structured (JSON) report stores only the first 10, so
reconstruction does not yield the same `top_pages` sequence. -/
theorem C8_counterexample :
    reconstructTopPages (toJsonEntry (classify_carrier_aggregate (str "acme")
        (str "acme_com") elevenPages))
      ≠ reportTopPages (classify_carrier_aggregate (str "acme") (str "acme_com")
        elevenPages) := by
  decide

/-! ## Crawl-frontier invariants (C1, C5) -/
theorem mem_pySetAdd {v x : Str} {s : List Str} : v ∈ pySetAdd x s ↔ v = x ∨ v ∈ s := by
  unfold pySetAdd
  split_ifs with h
  · constructor
    · exact fun hv => Or.inr hv
    · rintro (rfl | hv)
      exacts [h, hv]
  · simp [or_comm]

theorem mem_listInsert1 {v x : Str} {l : List Str} : v ∈ listInsert1 x l ↔ v = x ∨ v ∈ l := by
  cases l with
  | nil => simp [listInsert1]
  | cons a as =>
    simp only [listInsert1, List.mem_cons]
    tauto

theorem insertLink_inv {s : CrawlState} (h : CrawlInv s) (u : Str) :
    CrawlInv (insertLink s u) := by
  obtain ⟨h1, h2, h3, h4, h5⟩ := h
  unfold insertLink
  split_ifs with hcond hfront htool hsite
  · obtain ⟨hv, hf, hq⟩ := hcond
    refine ⟨?_, h2, h3, h4, ?_⟩
    · refine h1.append (List.nodup_singleton u) ?_
      intro a ha hau
      rw [List.mem_singleton] at hau
      subst hau
      rcases h5 a ha with hh | hh | hh
      exacts [hq hh, hv hh, hf hh]
    · intro v hv2
      rcases List.mem_append.mp hv2 with hv2 | hv2
      · rcases h5 v hv2 with hh | hh | hh
        · exact Or.inl (List.mem_cons_of_mem u hh)
        · exact Or.inr (Or.inl hh)
        · exact Or.inr (Or.inr hh)
      · rw [List.mem_singleton] at hv2
        subst hv2
        exact Or.inl (List.mem_cons_self _ _)
  · obtain ⟨hv, hf, hq⟩ := hcond
    refine ⟨?_, h2, h3, h4, ?_⟩
    · refine h1.append (List.nodup_singleton u) ?_
      intro a ha hau
      rw [List.mem_singleton] at hau
      subst hau
      rcases h5 a ha with hh | hh | hh
      exacts [hq hh, hv hh, hf hh]
    · intro v hv2
      rcases List.mem_append.mp hv2 with hv2 | hv2
      · rcases h5 v hv2 with hh | hh | hh
        · exact Or.inl (mem_listInsert1.mpr (Or.inr hh))
        · exact Or.inr (Or.inl hh)
        · exact Or.inr (Or.inr hh)
      · rw [List.mem_singleton] at hv2
        subst hv2
        exact Or.inl (mem_listInsert1.mpr (Or.inl rfl))
  · obtain ⟨hv, hf, hq⟩ := hcond
    refine ⟨?_, h2, h3, h4, ?_⟩
    · refine h1.append (List.nodup_singleton u) ?_
      intro a ha hau
      rw [List.mem_singleton] at hau
      subst hau
      rcases h5 a ha with hh | hh | hh
      exacts [hq hh, hv hh, hf hh]
    · intro v hv2
      rcases List.mem_append.mp hv2 with hv2 | hv2
      · rcases h5 v hv2 with hh | hh | hh
        · exact Or.inl (List.mem_append_left _ hh)
        · exact Or.inr (Or.inl hh)
        · exact Or.inr (Or.inr hh)
      · rw [List.mem_singleton] at hv2
        subst hv2
        exact Or.inl (List.mem_append_right _ (List.mem_singleton_self _))
  · exact ⟨h1, h2, h3, h4, h5⟩
  · exact ⟨h1, h2, h3, h4, h5⟩

theorem foldl_insertLink_inv {links : List Str} {s : CrawlState} (h : CrawlInv s) :
    CrawlInv (links.foldl insertLink s) := by
  induction links generalizing s with
  | nil => exact h
  | cons l rest ih => exact ih (insertLink_inv h l)

theorem crawlVisit_inv {s : CrawlState} {u : Str} {rest : List Str} {o : FetchOutcome}
    (h : CrawlInv s) (hq : s.urls_to_visit = u :: rest)
    (hu : u ∉ s.visited) (hf : u ∉ s.failed) : CrawlInv (crawlVisit s u rest o) := by
  obtain ⟨h1, h2, h3, h4, h5⟩ := h
  have hbase : CrawlInv { s with
      urls_to_visit := rest
      visited := pySetAdd u s.visited
      fetchLog := s.fetchLog ++ [u] } := by
    refine ⟨h1, ?_, ?_, ?_, ?_⟩
    · refine h2.append (List.nodup_singleton u) ?_
      intro a ha hau
      rw [List.mem_singleton] at hau
      subst hau
      exact hu (h3 a ha)
    · intro v hv
      rcases List.mem_append.mp hv with hv | hv
      · exact mem_pySetAdd.mpr (Or.inr (h3 v hv))
      · rw [List.mem_singleton] at hv
        subst hv
        exact mem_pySetAdd.mpr (Or.inl rfl)
    · intro v hv
      exact mem_pySetAdd.mpr (Or.inr (h4 v hv))
    · intro v hv
      rcases h5 v hv with hh | hh | hh
      · rw [hq] at hh
        rcases List.mem_cons.mp hh with rfl | hh
        · exact Or.inr (Or.inl (mem_pySetAdd.mpr (Or.inl rfl)))
        · exact Or.inl hh
      · exact Or.inr (Or.inl (mem_pySetAdd.mpr (Or.inr hh)))
      · exact Or.inr (Or.inr hh)
  unfold crawlVisit
  match o with
  | .failure =>
    obtain ⟨g1, g2, g3, g4, g5⟩ := hbase
    refine ⟨g1, g2, g3, ?_, ?_⟩
    · intro v hv
      rcases mem_pySetAdd.mp hv with rfl | hv
      · exact mem_pySetAdd.mpr (Or.inl rfl)
      · exact g4 v hv
    · intro v hv
      rcases g5 v hv with hh | hh | hh
      · exact Or.inl hh
      · exact Or.inr (Or.inl hh)
      · exact Or.inr (Or.inr (mem_pySetAdd.mpr (Or.inr hh)))
  | .success links => exact foldl_insertLink_inv hbase

theorem crawlLoop_inv (fuel : Nat) :
    ∀ (s : CrawlState) (outs : List FetchOutcome),
      CrawlInv s → CrawlInv (crawlLoop fuel s outs) := by
  induction fuel with
  | zero => intro s outs h; exact h
  | succ fuel ih =>
    intro s outs h
    unfold crawlLoop
    split
    · exact h
    · rename_i u rest hq
      split_ifs with hbudget hseen
      · exact h
      · refine ih _ outs ?_
        obtain ⟨h1, h2, h3, h4, h5⟩ := h
        refine ⟨h1, h2, h3, h4, ?_⟩
        intro v hv
        rcases h5 v hv with hh | hh | hh
        · rw [hq] at hh
          rcases List.mem_cons.mp hh with rfl | hh
          · rcases hseen with hs | hs
            exacts [Or.inr (Or.inl hs), Or.inr (Or.inr hs)]
          · exact Or.inl hh
        · exact Or.inr (Or.inl hh)
        · exact Or.inr (Or.inr hh)
      · push_neg at hseen
        split
        · exact ih _ [] (crawlVisit_inv h hq hseen.1 hseen.2)
        · exact ih _ _ (crawlVisit_inv h hq hseen.1 hseen.2)

theorem buildSeedQueue_nodup (base_url0 : Str) (initial_urls : List Str)
    (h : initial_urls.Nodup) : (buildSeedQueue base_url0 initial_urls).Nodup := by
  unfold buildSeedQueue
  rw [List.nodup_cons]
  constructor
  · intro hmem
    rcases List.mem_append.mp hmem with hm | hm
    · have hc := (List.mem_filter.mp (List.mem_filter.mp hm).1).2
      simp only [decide_eq_true_eq] at hc
      exact hc.1 rfl
    · have hc := (List.mem_filter.mp (List.mem_filter.mp (List.take_subset _ _ hm)).1).2
      simp only [decide_eq_true_eq] at hc
      exact hc.1 rfl
  · refine List.Nodup.append ?_ ?_ ?_
    · exact (h.filter _).filter _
    · exact List.Nodup.sublist (List.take_sublist _ _) ((h.filter _).filter _)
    · intro a ha hb
      have h1 := (List.mem_filter.mp ha).2
      have h2 := (List.mem_filter.mp (List.take_subset _ _ hb)).2
      simp only [decide_eq_true_eq] at h2
      exact h2 h1

theorem initCrawlState_inv (base_url0 : Str) (initial_urls : List Str)
    (h : initial_urls.Nodup) : CrawlInv (initCrawlState base_url0 initial_urls) := by
  refine ⟨buildSeedQueue_nodup base_url0 initial_urls h, List.nodup_nil, ?_, ?_, ?_⟩
  · intro u hu
    simp [initCrawlState] at hu
  · intro u hu
    simp [initCrawlState] at hu
  · intro u hu
    exact Or.inl hu

/-- C1: for every crawl of one site (duplicate-free discovery set), no URL
string is enqueued twice and no URL string is fetched twice.  This is the
string-level part of the claim; the claim's stronger normalized-URL version
fails on sitemap seeds, see `C1_counterexample`. -/
theorem C1_frontier_dedup (base_url : Str) (initial_urls : List Str)
    (outs : List FetchOutcome) (fuel : Nat) (h : initial_urls.Nodup) :
    (crawl_model base_url initial_urls outs fuel).fetchLog.Nodup ∧
    (crawl_model base_url initial_urls outs fuel).enqLog.Nodup := by
  have hinv := crawlLoop_inv fuel (initCrawlState base_url initial_urls) outs
    (initCrawlState_inv base_url initial_urls h)
  exact ⟨hinv.2.1, hinv.1⟩

theorem C1_frontier_dedup_witness :
    ([str "https://x.com/a"] : List Str).Nodup ∧
    ((crawl_model (str "https://x.com") [str "https://x.com/a"] [FetchOutcome.failure] 3).fetchLog.Nodup ∧
     (crawl_model (str "https://x.com") [str "https://x.com/a"] [FetchOutcome.failure] 3).enqLog.Nodup) :=
  ⟨by decide,
   C1_frontier_dedup (str "https://x.com") [str "https://x.com/a"] [FetchOutcome.failure] 3 (by decide)⟩

/-- C1 counterexample: a sitemap seed enters the frontier raw (bypassing
`normalize_url`), so the crawl fetches `https://x.com/a/` from the seed set
and `https://x.com/a` from an extracted link even though both normalize to
the same URL — the fetch is NOT invoked at most once per normalized URL. -/
theorem C1_counterexample :
    (str "https://x.com/a/") ∈ (crawl_model (str "https://x.com") [str "https://x.com/a/"]
      [FetchOutcome.success [str "https://x.com/a"], FetchOutcome.failure, FetchOutcome.failure] 5).fetchLog ∧
    (str "https://x.com/a") ∈ (crawl_model (str "https://x.com") [str "https://x.com/a/"]
      [FetchOutcome.success [str "https://x.com/a"], FetchOutcome.failure, FetchOutcome.failure] 5).fetchLog ∧
    str "https://x.com/a/" ≠ str "https://x.com/a" ∧
    normalize_url (str "https://x.com/a/") (str "https://x.com") =
      normalize_url (str "https://x.com/a") (str "https://x.com") := by
  decide

theorem listInsert1_length (x : Str) (l : List Str) :
    (listInsert1 x l).length = l.length + 1 := by
  cases l <;> simp [listInsert1]

theorem insertLink_queue_len (s : CrawlState) (u : Str) :
    (insertLink s u).urls_to_visit.length ≤ s.urls_to_visit.length + 1 := by
  unfold insertLink
  split_ifs
  · simp
  · rw [listInsert1_length]
  · simp
  · exact Nat.le_succ _
  · exact Nat.le_succ _

theorem foldl_insertLink_queue_len (links : List Str) :
    ∀ s : CrawlState, (links.foldl insertLink s).urls_to_visit.length ≤
      s.urls_to_visit.length + links.length := by
  induction links with
  | nil => intro s; simp
  | cons l rest ih =>
    intro s
    have h1 := ih (insertLink s l)
    have h2 := insertLink_queue_len s l
    simp only [List.foldl_cons, List.length_cons]
    omega

theorem crawlVisit_queue_len (s : CrawlState) (u : Str) (rest : List Str) (o : FetchOutcome) :
    (crawlVisit s u rest o).urls_to_visit.length ≤ rest.length + outcomeLinks o := by
  unfold crawlVisit
  match o with
  | .failure => simp [outcomeLinks]
  | .success links =>
    simpa [outcomeLinks] using foldl_insertLink_queue_len links
      { s with urls_to_visit := rest, visited := pySetAdd u s.visited,
               fetchLog := s.fetchLog ++ [u] }

theorem crawlLoop_done (fuel : Nat) :
    ∀ (s : CrawlState) (outs : List FetchOutcome),
      s.urls_to_visit.length + outsWeight outs ≤ fuel →
      (crawlLoop fuel s outs).urls_to_visit = [] ∨
        MAX_PAGES_PER_SITE ≤ (crawlLoop fuel s outs).visited.length := by
  induction fuel with
  | zero =>
    intro s outs hf
    left
    have hz : s.urls_to_visit.length = 0 := by omega
    exact List.length_eq_zero.mp hz
  | succ fuel ih =>
    intro s outs hf
    unfold crawlLoop
    split
    · rename_i hq
      exact Or.inl hq
    · rename_i u rest hq
      have hlen : s.urls_to_visit.length = rest.length + 1 := by rw [hq]; rfl
      split_ifs with hbudget hseen
      · exact Or.inr hbudget
      · refine ih _ outs ?_
        show rest.length + outsWeight outs ≤ fuel
        omega
      · split
        · refine ih _ [] ?_
          show rest.length + outsWeight [] ≤ fuel
          simp only [outsWeight, List.map_nil, List.sum_nil]
          omega
        · rename_i o outs2
          refine ih _ outs2 ?_
          have hv := crawlVisit_queue_len s u rest o
          have hw : outsWeight (o :: outs2) = 1 + outcomeLinks o + outsWeight outs2 := by
            simp [outsWeight]
          omega

/-- C5: within one site crawl every fetched URL ends in `visited` (and a
failed URL is recorded in `failed` as well), and with enough fuel the loop
stops exactly when the frontier is empty or `len(visited)` has reached the
per-site budget.  The claim's disjointness of `visited` and `failed` fails:
`_crawl_page` adds the URL to `visited` on entry even when the fetch then
fails, see `C5_counterexample`. -/
theorem C5_terminal_states (base_url : Str) (initial_urls : List Str)
    (outs : List FetchOutcome) (fuel : Nat)
    (h : initial_urls.Nodup)
    (hfuel : (initCrawlState base_url initial_urls).urls_to_visit.length + outsWeight outs ≤ fuel) :
    (∀ u ∈ (crawl_model base_url initial_urls outs fuel).fetchLog,
        u ∈ (crawl_model base_url initial_urls outs fuel).visited) ∧
    (∀ u ∈ (crawl_model base_url initial_urls outs fuel).failed,
        u ∈ (crawl_model base_url initial_urls outs fuel).visited) ∧
    ((crawl_model base_url initial_urls outs fuel).urls_to_visit = [] ∨
      MAX_PAGES_PER_SITE ≤ (crawl_model base_url initial_urls outs fuel).visited.length) := by
  have hinv := crawlLoop_inv fuel (initCrawlState base_url initial_urls) outs
    (initCrawlState_inv base_url initial_urls h)
  have hdone := crawlLoop_done fuel (initCrawlState base_url initial_urls) outs hfuel
  exact ⟨hinv.2.2.1, hinv.2.2.2.1, hdone⟩

theorem C5_terminal_states_witness :
    (([] : List Str).Nodup ∧
      (initCrawlState (str "https://x.com") []).urls_to_visit.length +
        outsWeight [FetchOutcome.failure] ≤ 4) ∧
    ((∀ u ∈ (crawl_model (str "https://x.com") [] [FetchOutcome.failure] 4).fetchLog,
        u ∈ (crawl_model (str "https://x.com") [] [FetchOutcome.failure] 4).visited) ∧
     (∀ u ∈ (crawl_model (str "https://x.com") [] [FetchOutcome.failure] 4).failed,
        u ∈ (crawl_model (str "https://x.com") [] [FetchOutcome.failure] 4).visited) ∧
     ((crawl_model (str "https://x.com") [] [FetchOutcome.failure] 4).urls_to_visit = [] ∨
       MAX_PAGES_PER_SITE ≤
         (crawl_model (str "https://x.com") [] [FetchOutcome.failure] 4).visited.length)) :=
  ⟨⟨by decide, by decide⟩,
   C5_terminal_states (str "https://x.com") [] [FetchOutcome.failure] 4 (by decide) (by decide)⟩

/-- C5 counterexample: a URL whose fetch fails is in `visited` AND in
`failed` at the end of the crawl — the two terminal sets are not disjoint. -/
theorem C5_counterexample :
    (str "https://x.com") ∈ (crawl_model (str "https://x.com") [] [FetchOutcome.failure] 2).visited ∧
    (str "https://x.com") ∈ (crawl_model (str "https://x.com") [] [FetchOutcome.failure] 2).failed := by
  decide

/-! ## `normalize_url` lemmas (C7, C10) -/
theorem toLower_isWhitespace (c : Char) (h : c.isWhitespace = true) :
    (Char.toLower c).isWhitespace = true := by
  simp only [Char.isWhitespace, Bool.or_eq_true, decide_eq_true_eq] at h
  rcases h with ((rfl | rfl) | rfl) | rfl <;> decide

theorem infixDropLeftWs {p t : Str} (a : Str)
    (hp : ∀ c ∈ p, c.isWhitespace = false) (ha : ∀ c ∈ a, c.isWhitespace = true)
    (h : p <:+: a ++ t) : p <:+: t := by
  induction a with
  | nil => simpa using h
  | cons x a' ih =>
    rw [List.cons_append] at h
    rcases List.infix_cons_iff.mp h with hpre | hinf
    · match p, hpre with
      | [], _ => exact List.nil_infix
      | c :: p', hpre =>
        have hc : c = x := (List.cons_prefix_cons.mp hpre).1
        have hxw := ha x (List.mem_cons_self x a')
        have hcw := hp c (List.mem_cons_self c p')
        rw [hc, hxw] at hcw
        cases hcw
    · exact ih (fun c hc => ha c (List.mem_cons_of_mem x hc)) hinf

theorem infixDropRightWs {p t : Str} (b : Str)
    (hp : ∀ c ∈ p, c.isWhitespace = false) (hb : ∀ c ∈ b, c.isWhitespace = true)
    (h : p <:+: t ++ b) : p <:+: t := by
  have h1 : p.reverse <:+: b.reverse ++ t.reverse := by
    rw [← List.reverse_append]
    exact List.reverse_infix.mpr h
  have h2 := infixDropLeftWs b.reverse
    (fun c hc => hp c (List.mem_reverse.mp hc))
    (fun c hc => hb c (List.mem_reverse.mp hc)) h1
  exact List.reverse_infix.mp h2

theorem trimStr_decomp (s : Str) :
    ∃ a b, s = a ++ trimStr s ++ b ∧
      (∀ c ∈ a, c.isWhitespace = true) ∧ (∀ c ∈ b, c.isWhitespace = true) := by
  refine ⟨s.takeWhile Char.isWhitespace,
    ((s.dropWhile Char.isWhitespace).reverse.takeWhile Char.isWhitespace).reverse, ?_, ?_, ?_⟩
  · have h1 : s.takeWhile Char.isWhitespace ++ s.dropWhile Char.isWhitespace = s :=
      List.takeWhile_append_dropWhile Char.isWhitespace s
    have h2 : s.dropWhile Char.isWhitespace =
        trimStr s ++
          ((s.dropWhile Char.isWhitespace).reverse.takeWhile Char.isWhitespace).reverse := by
      unfold trimStr
      rw [← List.reverse_append, List.takeWhile_append_dropWhile, List.reverse_reverse]
    conv_lhs => rw [← h1, h2]
    rw [List.append_assoc]
  · intro c hc
    exact List.mem_takeWhile_imp hc
  · intro c hc
    exact List.mem_takeWhile_imp (List.mem_reverse.mp hc)

theorem containsSub_trim (s p : Str) (hp : ∀ c ∈ p, c.isWhitespace = false)
    (h : containsSub (lowerStr s) p = true) :
    containsSub (lowerStr (trimStr s)) p = true := by
  obtain ⟨a, b, hs, ha, hb⟩ := trimStr_decomp s
  rw [containsSub_iff] at h ⊢
  rw [hs] at h
  simp only [lowerStr, List.map_append] at h
  have ha' : ∀ c ∈ a.map Char.toLower, c.isWhitespace = true := by
    intro c hc
    rcases List.mem_map.mp hc with ⟨d, hd, rfl⟩
    exact toLower_isWhitespace d (ha d hd)
  have hb' : ∀ c ∈ b.map Char.toLower, c.isWhitespace = true := by
    intro c hc
    rcases List.mem_map.mp hc with ⟨d, hd, rfl⟩
    exact toLower_isWhitespace d (hb d hd)
  rw [List.append_assoc] at h
  exact infixDropRightWs _ hp hb' (infixDropLeftWs _ hp ha' h)

/-- C10: a raw link whose lowercased text contains `.pdf` is dropped by
`normalize_url` (its pattern filter runs before resolution), so an extracted
link containing `.pdf` is never enqueued.  The claim's further consequence —
that `_is_pdf_or_map` can fire only on discovery seeds — fails: resolution
against a base URL with `.pdf` in a directory segment can mint a normalized
URL that `_is_pdf_or_map` accepts, see `C10_counterexample`. -/
theorem C10_pdf_links_never_normalized (url0 base_url : Str)
    (h : containsSub (lowerStr url0) (str ".pdf") = true) :
    normalize_url url0 base_url = none := by
  have hp : ∀ c ∈ str ".pdf", c.isWhitespace = false := by decide
  have htrim := containsSub_trim url0 (str ".pdf") hp h
  have hany : EXCLUDED_URL_PATTERNS.any
      (fun p => containsSub (lowerStr (trimStr url0)) p) = true :=
    List.any_eq_true.mpr ⟨str ".pdf", by decide, htrim⟩
  simp only [normalize_url, hany, if_true, ite_self]

theorem C10_pdf_links_never_normalized_witness :
    containsSub (lowerStr (str "/files/brochure.PDF")) (str ".pdf") = true ∧
    normalize_url (str "/files/brochure.PDF") (str "https://x.com") = none :=
  ⟨by decide,
   C10_pdf_links_never_normalized (str "/files/brochure.PDF") (str "https://x.com") (by decide)⟩

/-- C10 counterexample: the relative link `y` (no `.pdf` in the raw string)
resolved against the page `https://x.com/map.pdf/x` normalizes to
`https://x.com/map.pdf/y`, which `_is_pdf_or_map` accepts — so the PDF/map
front-of-queue branch is reachable from an extracted link, not only from
discovery seeds. -/
theorem C10_counterexample :
    normalize_url (str "y") (str "https://x.com/map.pdf/x") =
      some (str "https://x.com/map.pdf/y") ∧
    is_pdf_or_map (str "https://x.com/map.pdf/y") = true := by
  decide

theorem splitAtFirst_of_not_mem {c : Char} {xs : Str} (h : c ∉ xs) :
    splitAtFirst c xs = none := by
  induction xs with
  | nil => rfl
  | cons a rest ih =>
    have ha : ¬(a = c) := fun hac => h (hac ▸ List.mem_cons_self a rest)
    simp [splitAtFirst, ha, ih (fun hc => h (List.mem_cons_of_mem a hc))]

theorem splitAtFirst_append {c : Char} {xs : Str} (ys : Str) (h : c ∉ xs) :
    splitAtFirst c (xs ++ c :: ys) = some (xs, ys) := by
  induction xs with
  | nil => simp [splitAtFirst]
  | cons a rest ih =>
    have ha : ¬(a = c) := fun hac => h (hac ▸ List.mem_cons_self a rest)
    simp [splitAtFirst, ha, ih (fun hc => h (List.mem_cons_of_mem a hc))]

theorem takeWhile_append_all {p : Char → Bool} {l : Str} (t : Str)
    (h : ∀ c ∈ l, p c = true) :
    (l ++ t).takeWhile p = l ++ t.takeWhile p ∧ (l ++ t).dropWhile p = t.dropWhile p := by
  induction l with
  | nil => simp
  | cons a rest ih =>
    have ha := h a (List.mem_cons_self a rest)
    have ih' := ih (fun c hc => h c (List.mem_cons_of_mem a hc))
    simp [List.takeWhile_cons, List.dropWhile_cons, ha, ih'.1, ih'.2]

theorem takeWhile_stop {p : Char → Bool} {t : Str}
    (h : t = [] ∨ ∃ c t', t = c :: t' ∧ p c = false) :
    t.takeWhile p = [] ∧ t.dropWhile p = t := by
  rcases h with rfl | ⟨c, t', rfl, hc⟩
  · simp
  · simp [List.takeWhile_cons, List.dropWhile_cons, hc]

theorem dropWhile_eq_self_of {p : Char → Bool} {s : Str} (h : ∀ c ∈ s, p c = false) :
    s.dropWhile p = s := by
  cases s with
  | nil => rfl
  | cons a rest => simp [List.dropWhile_cons, h a (List.mem_cons_self a rest)]

theorem trimStr_eq_self {s : Str} (h : ∀ c ∈ s, c.isWhitespace = false) :
    trimStr s = s := by
  unfold trimStr
  rw [dropWhile_eq_self_of h,
    dropWhile_eq_self_of (fun c hc => h c (List.mem_reverse.mp hc)),
    List.reverse_reverse]

theorem pyUrlsplit_shape (sch h t : Str)
    (hs : sch = str "http" ∨ sch = str "https")
    (hh : ∀ c ∈ h, notNetlocEnd c = true)
    (ht : t = [] ∨ ∃ c t', t = c :: t' ∧ notNetlocEnd c = false) :
    pyUrlsplit (sch ++ str "://" ++ h ++ t) =
      ⟨sch, h, (splitTail t).1, (splitTail t).2.1, (splitTail t).2.2⟩ := by
  have hcolon : sch ++ str "://" ++ h ++ t = sch ++ ':' :: (str "//" ++ (h ++ t)) := by
    rw [List.append_assoc, List.append_assoc]
    rfl
  have hsp : splitAtFirst ':' (sch ++ ':' :: (str "//" ++ (h ++ t))) =
      some (sch, str "//" ++ (h ++ t)) := by
    apply splitAtFirst_append
    rcases hs with rfl | rfl <;> decide
  have hvalid : schemeValid sch = true := by rcases hs with rfl | rfl <;> decide
  have hlower : lowerStr sch = sch := by rcases hs with rfl | rfl <;> decide
  have hss : str "//" = ['/', '/'] := rfl
  have hpre : (str "//").isPrefixOf (str "//" ++ (h ++ t)) = true := by
    simp [hss, List.isPrefixOf]
  have hdrop : (str "//" ++ (h ++ t)).drop 2 = h ++ t := by
    simp [hss]
  have hstop := takeWhile_stop ht
  have h1 : (h ++ t).takeWhile notNetlocEnd = h := by
    rw [(takeWhile_append_all t hh).1, hstop.1, List.append_nil]
  have h2 : (h ++ t).dropWhile notNetlocEnd = t := by
    rw [(takeWhile_append_all t hh).2, hstop.2]
  rw [hcolon]
  simp only [pyUrlsplit, hsp, hvalid, if_true, hlower, hpre, hdrop, h1, h2, splitTail]

theorem normalize_url_shape (sch h t base : Str)
    (hs : sch = str "http" ∨ sch = str "https")
    (hh : ∀ c ∈ h, notNetlocEnd c = true)
    (ht : t = [] ∨ ∃ c t', t = c :: t' ∧ notNetlocEnd c = false)
    (hws : ∀ c ∈ sch ++ str "://" ++ h ++ t, c.isWhitespace = false)
    (hpat : EXCLUDED_URL_PATTERNS.any
      (fun p => containsSub (lowerStr (sch ++ str "://" ++ h ++ t)) p) = false) :
    normalize_url (sch ++ str "://" ++ h ++ t) base =
      some (mkNormalized sch h (splitTail t).1 (splitTail t).2.1) := by
  have htrim : trimStr (sch ++ str "://" ++ h ++ t) = sch ++ str "://" ++ h ++ t :=
    trimStr_eq_self hws
  have hsplit := pyUrlsplit_shape sch h t hs hh ht
  have hne : ¬(sch ++ str "://" ++ h ++ t = ([] : Str)) := by
    rcases hs with rfl | rfl <;> simp [str]
  have hnp1 : (str "//").isPrefixOf (sch ++ str "://" ++ h ++ t) = false := by
    rcases hs with rfl | rfl <;> rfl
  have hnp2 : (str "/").isPrefixOf (sch ++ str "://" ++ h ++ t) = false := by
    rcases hs with rfl | rfl <;> rfl
  have hp3 : (str "http").isPrefixOf (sch ++ str "://" ++ h ++ t) = true := by
    rcases hs with rfl | rfl <;> rfl
  have hsch : ¬(sch ≠ str "http" ∧ sch ≠ str "https") := by
    rcases hs with rfl | rfl <;> simp
  simp only [normalize_url, htrim, hpat, Bool.false_eq_true, if_false, hnp1, hnp2, hp3,
    not_true, hsplit, mkNormalized]
  rw [if_neg hne, if_neg (fun hc : ¬(sch = str "http") ∧ ¬(sch = str "https") =>
    hc.2 (hs.resolve_left hc.1))]

/-- C7: `normalize_url` maps two variants of the same address to the same
output when they differ in the letter case of the HOST and in an appended
fragment (the output has the fragment stripped and the host lower-cased,
with query and path preserved up to the trailing-slash rule).  The claim's
blanket "differing only in letter case" fails because the PATH is kept
case-sensitive, see `C7_counterexample`. -/
theorem C7_host_case_and_fragment_invariance
    (sch h1 h2 r frag base : Str)
    (hs : sch = str "http" ∨ sch = str "https")
    (hl : lowerStr h1 = lowerStr h2)
    (hh1 : ∀ c ∈ h1, notNetlocEnd c = true)
    (hh2 : ∀ c ∈ h2, notNetlocEnd c = true)
    (hr : r = [] ∨ ∃ c r', r = c :: r' ∧ notNetlocEnd c = false)
    (hhash : '#' ∉ r)
    (hws1 : ∀ c ∈ h1 ++ (r ++ frag), c.isWhitespace = false)
    (hws2 : ∀ c ∈ h2, c.isWhitespace = false)
    (hpat : EXCLUDED_URL_PATTERNS.any
      (fun p => containsSub (lowerStr (sch ++ str "://" ++ h1 ++ (r ++ '#' :: frag))) p) = false) :
    normalize_url (sch ++ str "://" ++ h1 ++ (r ++ '#' :: frag)) base =
      normalize_url (sch ++ str "://" ++ h2 ++ r) base := by
  have hsws : ∀ c ∈ sch ++ str "://", c.isWhitespace = false := by
    rcases hs with rfl | rfl <;> decide
  have htA : r ++ '#' :: frag = [] ∨
      ∃ c t', r ++ '#' :: frag = c :: t' ∧ notNetlocEnd c = false := by
    rcases hr with rfl | ⟨c, r', rfl, hc⟩
    · exact Or.inr ⟨'#', frag, rfl, by decide⟩
    · exact Or.inr ⟨c, r' ++ '#' :: frag, rfl, hc⟩
  have hwsA : ∀ c ∈ sch ++ str "://" ++ h1 ++ (r ++ '#' :: frag), c.isWhitespace = false := by
    intro c hc
    rcases List.mem_append.mp hc with hc | hc
    · rcases List.mem_append.mp hc with hc | hc
      · exact hsws c hc
      · exact hws1 c (List.mem_append_left _ hc)
    · rcases List.mem_append.mp hc with hc | hc
      · exact hws1 c (List.mem_append_right _ (List.mem_append_left _ hc))
      · rcases List.mem_cons.mp hc with rfl | hc
        · decide
        · exact hws1 c (List.mem_append_right _ (List.mem_append_right _ hc))
  have hwsB : ∀ c ∈ sch ++ str "://" ++ h2 ++ r, c.isWhitespace = false := by
    intro c hc
    rcases List.mem_append.mp hc with hc | hc
    · rcases List.mem_append.mp hc with hc | hc
      · exact hsws c hc
      · exact hws2 c hc
    · exact hws1 c (List.mem_append_right _ (List.mem_append_left _ hc))
  have hlowEq : lowerStr (sch ++ str "://" ++ h2 ++ r) =
      lowerStr (sch ++ str "://" ++ h1 ++ r) := by
    simp only [lowerStr, List.map_append] at hl ⊢
    rw [hl]
  have hpatB : EXCLUDED_URL_PATTERNS.any
      (fun p => containsSub (lowerStr (sch ++ str "://" ++ h2 ++ r)) p) = false := by
    cases hB : EXCLUDED_URL_PATTERNS.any
        (fun p => containsSub (lowerStr (sch ++ str "://" ++ h2 ++ r)) p) with
    | false => rfl
    | true =>
      exfalso
      obtain ⟨p, hpmem, hp⟩ := List.any_eq_true.mp hB
      rw [hlowEq] at hp
      have hext : containsSub (lowerStr (sch ++ str "://" ++ h1 ++ (r ++ '#' :: frag))) p
          = true := by
        rw [containsSub_iff] at hp ⊢
        have hrw : sch ++ str "://" ++ h1 ++ (r ++ '#' :: frag) =
            (sch ++ str "://" ++ h1 ++ r) ++ '#' :: frag := by
          rw [List.append_assoc (sch ++ str "://" ++ h1) r]
        rw [hrw]
        have hdist : lowerStr ((sch ++ str "://" ++ h1 ++ r) ++ '#' :: frag) =
            lowerStr (sch ++ str "://" ++ h1 ++ r) ++ lowerStr ('#' :: frag) :=
          List.map_append _ _ _
        rw [hdist]
        exact hp.trans (List.prefix_append _ _).isInfix
      have hcontra := List.any_eq_true.mpr ⟨p, hpmem, hext⟩
      rw [hpat] at hcontra
      cases hcontra
  rw [normalize_url_shape sch h1 (r ++ '#' :: frag) base hs hh1 htA hwsA hpat,
      normalize_url_shape sch h2 r base hs hh2 hr hwsB hpatB]
  have hsplitT : splitTail (r ++ '#' :: frag) = ((splitTail r).1, (splitTail r).2.1, frag) := by
    simp only [splitTail, splitAtFirst_append frag hhash, splitAtFirst_of_not_mem hhash]
  rw [hsplitT]
  simp only [mkNormalized, hl]

theorem C7_host_case_and_fragment_invariance_witness :
    ((str "https" : Str) = str "http" ∨ (str "https" : Str) = str "https") ∧
    lowerStr (str "EXample.com") = lowerStr (str "example.COM") ∧
    (∀ c ∈ str "EXample.com", notNetlocEnd c = true) ∧
    (∀ c ∈ str "example.COM", notNetlocEnd c = true) ∧
    (str "/Path" = ([] : Str) ∨ ∃ c r', str "/Path" = c :: r' ∧ notNetlocEnd c = false) ∧
    '#' ∉ str "/Path" ∧
    (∀ c ∈ str "EXample.com" ++ (str "/Path" ++ str "sec"), c.isWhitespace = false) ∧
    (∀ c ∈ str "example.COM", c.isWhitespace = false) ∧
    EXCLUDED_URL_PATTERNS.any (fun p => containsSub
      (lowerStr (str "https" ++ str "://" ++ str "EXample.com" ++
        (str "/Path" ++ '#' :: str "sec"))) p) = false ∧
    normalize_url (str "https" ++ str "://" ++ str "EXample.com" ++
        (str "/Path" ++ '#' :: str "sec")) (str "https://b.org") =
      normalize_url (str "https" ++ str "://" ++ str "example.COM" ++ str "/Path")
        (str "https://b.org") :=
  ⟨by decide, by decide, by decide, by decide,
   Or.inr ⟨'/', str "Path", rfl, by decide⟩, by decide, by decide, by decide, by decide,
   C7_host_case_and_fragment_invariance (str "https") (str "EXample.com") (str "example.COM")
     (str "/Path") (str "sec") (str "https://b.org")
     (by decide) (by decide) (by decide) (by decide)
     (Or.inr ⟨'/', str "Path", rfl, by decide⟩) (by decide) (by decide) (by decide) (by decide)⟩

/-- C7 counterexample: two raw URLs that differ only in the letter case of
one path character normalize to different outputs — the path is kept
case-sensitive, so case-variant addresses are NOT always identified. -/
theorem C7_counterexample :
    normalize_url (str "https://e.com/A") (str "https://e.com") ≠
      normalize_url (str "https://e.com/a") (str "https://e.com") := by
  decide
